import Mathlib

/-!
Shallow embedding of the PharmAI clinical decision-support scoring engine
(backend/utils/normalizer.py, backend/services/interaction_checker.py,
backend/services/dosage_engine.py, backend/services/risk_predictor.py,
backend/services/alternative_engine.py) and proofs about the claims of the
specification.

Modelling conventions, used throughout:
- Python numbers (int/float) are modelled as exact rationals (ℚ) and integers
  (ℤ/ℕ); the decimal literals appearing in the source (0.5, 1.15, ...) are
  taken at their exact decimal value.
- `round(x, n)` is modelled as exact rational rounding to n decimal places
  (Python rounds floats half-to-even; ties never matter for any claim here).
- The pandas data frames the services load lazily from parquet/csv files are
  modelled as explicit lists of records passed as parameters; an absent file
  (empty data frame) is the empty list.
- Python's `str.lower` is modelled on the character set this code can meet:
  ASCII A-Z, plus the character Â (U+00C2) that occurs in a key of the unit
  conversion table of normalizer.py; all other characters are fixed.
- The regex character classes \d, \s, \w of the two substitution patterns in
  normalize_med_name are modelled over their ASCII ranges (the Python `re`
  module would additionally match non-ASCII digits/whitespace/letters).
-/

set_option maxRecDepth 100000

namespace PharmAI

/-! ### Character classes and Python string primitives -/

/-- ASCII decimal digit: the `\d` class of the normalizer's regexes
restricted to ASCII (Python `re` with str patterns matches every Unicode
decimal digit; the one theorem whose truth depends on the class, the C3
amendment, therefore restricts its hypothesis to ASCII text, where this
model is exact). -/
def isPyDigit (c : Char) : Bool := '0' ≤ c && c ≤ '9'

/-- Python whitespace (`\s`, `str.split`, `str.strip`), ASCII part:
space, tab, newline, carriage return, form feed, vertical tab. -/
def isPyWS (c : Char) : Bool :=
  c = ' ' || c = '\t' || c = '\n' || c = '\x0d' || c = '\x0c' || c = '\x0b'

/-- Word character for the `\b` boundaries of the formulation-word regex:
ASCII letters, digits and underscore. -/
def isWordChar (c : Char) : Bool :=
  ('a' ≤ c && c ≤ 'z') || ('A' ≤ c && c ≤ 'Z') || isPyDigit c || c = '_'

/-- `str.lower` on one character (see the modelling conventions above). -/
def pyLowerChar (c : Char) : Char :=
  if 'A' ≤ c ∧ c ≤ 'Z' then Char.ofNat (c.toNat + 32)
  else if c = 'Â' then 'â' else c

/-- `str.lower` on a character list. -/
def pyLowerList (l : List Char) : List Char := l.map pyLowerChar

/-- `str.lower` on a string. -/
def pyLower (s : String) : String := String.mk (pyLowerList s.data)

/-- `str.strip()`: drop leading and trailing whitespace. -/
def pyStrip (l : List Char) : List Char :=
  ((l.dropWhile isPyWS).reverse.dropWhile isPyWS).reverse

/-- Prefix test on character lists (`re` literal match / `str.startswith`). -/
def hasPref : List Char → List Char → Bool
  | [], _ => true
  | _ :: _, [] => false
  | a :: as, b :: bs => a = b && hasPref as bs

/-- Substring test (`x in s` for Python strings). -/
def charsInfix (w : List Char) : List Char → Bool
  | [] => w.isEmpty
  | c :: rest => hasPref w (c :: rest) || charsInfix w rest

/-- `sub in s` for Python strings. -/
def strContains (s sub : String) : Bool := charsInfix sub.data s.data

/-- `str.startswith` for strings. -/
def strStartsWith (s p : String) : Bool := hasPref p.data s.data

/-- `str.split()` (split on whitespace runs, no empty tokens): worker with an
accumulator holding the current token reversed. -/
def splitWSAux : List Char → List Char → List (List Char)
  | [], acc => if acc = [] then [] else [acc.reverse]
  | c :: rest, acc =>
    if isPyWS c then
      if acc = [] then splitWSAux rest [] else acc.reverse :: splitWSAux rest []
    else splitWSAux rest (c :: acc)

/-- `str.split()` on a character list. -/
def splitWS (l : List Char) : List (List Char) := splitWSAux l []

/-- `' '.join(tokens)`. -/
def joinSpace : List (List Char) → List Char
  | [] => []
  | [t] => t
  | t :: u :: ts => t ++ ' ' :: joinSpace (u :: ts)

/-! ### The two regex substitutions of `normalize_med_name`

Pattern 1: `\d+\s*(mg|g|ml|mcg|iu|%|units?)` (IGNORECASE; the text is already
lowercased when the substitution runs).  Because no alternative of the unit
group starts with a digit or with whitespace, backtracking the greedy `\d+`
or `\s*` can never turn a failure into a match, so the regex matches at a
position iff the maximal digit run there is nonempty and, after the maximal
whitespace run following it, one of the alternatives (tried left to right,
with `units?` greedy) is a literal prefix.  `re.sub` scans left to right,
replacing each match with the empty string and resuming after it. -/

/-- The alternatives of the unit group, in the order the regex engine tries
them (`units?` expands to `units` before `unit` because `s?` is greedy). -/
def unitAlts : List (List Char) :=
  ["mg".data, "g".data, "ml".data, "mcg".data, "iu".data, "%".data,
   "units".data, "unit".data]

/-- First unit alternative that is a literal prefix of `l`, with its length. -/
def matchAlt (l : List Char) : Option Nat :=
  unitAlts.findSome? fun a => if hasPref a l then some a.length else none

/-- Length of the dosage-pattern match starting exactly at the head of `l`,
if any. -/
def matchDose (l : List Char) : Option Nat :=
  let ds := l.takeWhile isPyDigit
  if ds = [] then none
  else
    let r1 := l.drop ds.length
    let ws := r1.takeWhile isPyWS
    match matchAlt (r1.drop ws.length) with
    | some n => some (ds.length + ws.length + n)
    | none => none

/-- Left-to-right scan of `re.sub(dosage-pattern, '', ·)`; the fuel is an
upper bound on the number of steps (each step consumes at least one
character, so `l.length` fuel always suffices). -/
def reSubDoseAux : Nat → List Char → List Char
  | 0, l => l
  | _ + 1, [] => []
  | fuel + 1, c :: rest =>
    match matchDose (c :: rest) with
    | some n => reSubDoseAux fuel (List.drop n (c :: rest))
    | none => c :: reSubDoseAux fuel rest

/-- `re.sub(r'\d+\s*(mg|g|ml|mcg|iu|%|units?)', '', l, flags=IGNORECASE)`
on lowercased text. -/
def reSubDose (l : List Char) : List Char := reSubDoseAux l.length l

/-- The formulation words removed by the second substitution. -/
def formWords : List (List Char) :=
  ["tablet".data, "capsule".data, "injection".data, "syrup".data,
   "suspension".data, "cream".data, "ointment".data, "solution".data,
   "drops".data]

/-- `\b` before the match: every formulation word starts with a word
character, so the boundary holds iff the previous character (if any) is not
a word character. -/
def boundaryOk : Option Char → Bool
  | none => true
  | some p => ! isWordChar p

/-- `\b` after the match: every formulation word ends with a word character,
so the boundary holds iff the next character (if any) is not a word
character. -/
def rightBoundaryOk : List Char → Bool
  | [] => true
  | c :: _ => ! isWordChar c

/-- Length of the formulation-word match starting exactly at the head of `l`
(`prev` is the character just before `l` in the scanned text), if any; a
prefix alternative whose trailing boundary fails does not match, and the
engine tries the next alternative. -/
def matchForm (prev : Option Char) (l : List Char) : Option Nat :=
  if boundaryOk prev then
    formWords.findSome? fun w =>
      if hasPref w l ∧ rightBoundaryOk (l.drop w.length) then some w.length
      else none
  else none

/-- Left-to-right scan of the formulation-word substitution, tracking the
previous character of the original text for the `\b` test. -/
def reSubFormAux : Nat → Option Char → List Char → List Char
  | 0, _, l => l
  | _ + 1, _, [] => []
  | fuel + 1, prev, c :: rest =>
    match matchForm prev (c :: rest) with
    | some n =>
        reSubFormAux fuel (some ((c :: rest).getD (n - 1) c))
          (List.drop n (c :: rest))
    | none => c :: reSubFormAux fuel (some c) rest

/-- `re.sub(r'\b(tablet|capsule|...|drops)\b', '', l, flags=IGNORECASE)`
on lowercased text. -/
def reSubForm (l : List Char) : List Char := reSubFormAux l.length none l

/-- `normalize_med_name` (backend/utils/normalizer.py): lowercase and strip,
remove dosage tokens, remove formulation words, collapse whitespace.
Empty input (falsy in Python) returns the empty string. -/
def normalize_med_name (name : String) : String :=
  if name = "" then ""
  else
    let s1 := pyLowerList (pyStrip name.data)
    let s2 := reSubDose s1
    let s3 := reSubForm s2
    String.mk (joinSpace (splitWS s3))

/-! ### `normalize_dosage_unit` (backend/utils/normalizer.py) -/

/-- The `conversions_to_mg` table.  Its last key is the two characters
U+00C2 U+00B5 followed by `g` exactly as the bytes of the source file decode
(a mojibake spelling of `µg`). -/
def conversions_to_mg : List (String × ℚ) :=
  [("mg", 1), ("g", 1000), ("mcg", 0.001), ("ug", 0.001), ("Âµg", 0.001)]

/-- Dictionary lookup in `conversions_to_mg`. -/
def convFactor (u : String) : Option ℚ :=
  (conversions_to_mg.find? fun p => p.1 = u).map Prod.snd

/-- `normalize_dosage_unit(value, unit, target_unit)`: convert a dose to the
target unit; `none` when either unit is outside the table. -/
def normalize_dosage_unit (value : ℚ) (unit target_unit : String) : Option ℚ :=
  let u := pyLower unit
  let t := pyLower target_unit
  match convFactor u, convFactor t with
  | some cu, some ct => some (value * cu / ct)
  | _, _ => none

/-! ### Rounding and clamping helpers -/

/-- Rounding to the nearest integer, written out as integer division so
that it evaluates by kernel reduction (`pyRound q = ⌊q + 1/2⌋`, proved
below). -/
def pyRound (q : ℚ) : ℤ := (2 * q.num + (q.den : ℤ)) / (2 * (q.den : ℤ))

/-- `pyRound` agrees with rounding half-up. -/
theorem pyRound_eq (q : ℚ) : pyRound q = ⌊q + 1 / 2⌋ := by
  have hden : ((q.den : ℚ)) ≠ 0 := by
    exact_mod_cast (Nat.cast_ne_zero (R := ℚ)).mpr q.den_nz
  have hnum : (q.num : ℚ) = q * (q.den : ℚ) :=
    (div_eq_iff hden).mp (Rat.num_div_den q)
  have h2den : ((2 * q.den : ℕ) : ℚ) ≠ 0 := by
    push_cast
    simp [hden]
  have hq : q + 1 / 2 =
      ((2 * q.num + (q.den : ℤ) : ℤ) : ℚ) / ((2 * q.den : ℕ) : ℚ) := by
    rw [eq_div_iff h2den]
    push_cast
    rw [hnum]
    ring
  rw [hq, Rat.floor_intCast_div_natCast]
  unfold pyRound
  push_cast
  rfl

/-- `round(x, 1)` as exact rational rounding to one decimal place. -/
def roundTo1 (q : ℚ) : ℚ := ((pyRound (q * 10) : ℤ) : ℚ) / 10

/-- `round(x, 2)` as exact rational rounding to two decimal places. -/
def roundTo2 (q : ℚ) : ℚ := ((pyRound (q * 100) : ℤ) : ℚ) / 100

/-- `max lo (min hi x)`, the clamp used by the risk predictor. -/
def clampQ (x lo hi : ℚ) : ℚ := max lo (min hi x)

/-- Two-digit zero padding for the fractional part of `fmt2`. -/
def pad2 (k : ℕ) : String := if k < 10 then "0" ++ toString k else toString k

/-- `f"{x:.2f}"`: fixed two-decimal rendering of a rational. -/
def fmt2 (q : ℚ) : String :=
  let n : ℤ := pyRound (q * 100)
  let sign := if n < 0 then "-" else ""
  let m := n.natAbs
  sign ++ toString (m / 100) ++ "." ++ pad2 (m % 100)

/-- Python `str` of a number inside an f-string, modelled by the rational's
own rendering (integers print without a fractional part). -/
def fmtNum (q : ℚ) : String := toString q

/-! ### Dosage engine (backend/services/dosage_engine.py) -/

/-- One row of the WHO ATC/DDD table (`atc_ddd.parquet`). -/
structure DDDRecord where
  atc_code : String
  drug_name : String
  ddd : ℚ
  unit : String
  route : String
  drug_name_normalized : String
deriving DecidableEq

/-- One row of the age-specific table (`age_specific.parquet`). -/
structure AgeRecord where
  drug : String
  age_group : String
  usage_pattern : String
  drug_normalized : String
deriving DecidableEq

/-- The patient-info map; `none` models an absent key. -/
structure PatientInfo where
  patient_age : Option ℤ := none
  patient_weight_kg : Option ℚ := none
deriving DecidableEq

/-- `categorize_age`: clinical age bands. -/
def categorize_age (age : ℤ) : String :=
  if age < 2 then "Infant"
  else if age < 12 then "Pediatric"
  else if age < 18 then "Adolescent"
  else if age < 65 then "Adult"
  else "Geriatric"

/-- `get_ddd`: first row of the ATC/DDD table whose normalized name equals
the normalized medication name (an empty table yields `none`, matching the
`atc_db.empty` early return). -/
def get_ddd (atc_db : List DDDRecord) (medication : String) : Option DDDRecord :=
  atc_db.find? fun r => r.drug_name_normalized = normalize_med_name medication

/-- `get_default_age_adjustment`: fallback guidance per age group. -/
def get_default_age_adjustment (age_group : String) : String :=
  if age_group = "Infant" then
    "Weight-based dosing required. Consult pediatric guidelines."
  else if age_group = "Pediatric" then
    "Reduced dose based on weight/age. Verify with pediatric formulary."
  else if age_group = "Adolescent" then
    "May require adult or pediatric dose depending on weight."
  else if age_group = "Adult" then "Standard adult dosing"
  else if age_group = "Geriatric" then
    "Consider reduced dose. Monitor renal/hepatic function."
  else "Standard dosing"

/-- `get_age_adjustment`: usage pattern of the first matching age-specific
row, else the per-age-group default (an empty table also falls back to the
default, matching the `age_db.empty` early return). -/
def get_age_adjustment (age_db : List AgeRecord) (medication age_group : String) :
    String :=
  match age_db.find? fun r =>
      r.drug_normalized = normalize_med_name medication ∧
      r.age_group = age_group with
  | some r => r.usage_pattern
  | none => get_default_age_adjustment age_group

/-- `verify_dosage_safety`: returns (status, message, recommendation).
The `medication` argument is accepted and unused, as in the source. -/
def verify_dosage_safety (dose_ratio : ℚ) (age_group age_adjustment
    medication : String) : String × String × String :=
  let base :
      String × String × String :=
    if dose_ratio < 0.5 then
      ("low",
       "Dose is below 50% of standard DDD (ratio: " ++ fmt2 dose_ratio ++ ")",
       "Verify therapeutic efficacy. May be subtherapeutic.")
    else if dose_ratio ≤ 1.5 then
      ("safe",
       "Dose within acceptable range (ratio: " ++ fmt2 dose_ratio ++ ")",
       "Continue as prescribed. Monitor patient response.")
    else if dose_ratio ≤ 2.0 then
      ("high",
       "Dose above standard DDD (ratio: " ++ fmt2 dose_ratio ++ ")",
       "Monitor for adverse effects. Dose may be intentionally high for specific indication.")
    else
      ("very_high",
       "Dose significantly above standard DDD (ratio: " ++ fmt2 dose_ratio ++ ")",
       "VERIFY PRESCRIPTION. Consult physician. Risk of toxicity.")
  if (age_group = "Pediatric" ∨ age_group = "Infant" ∨ age_group = "Geriatric")
      ∧ dose_ratio > 1.0 then
    ((if dose_ratio > 1.5 then "very_high" else "high"),
     base.2.1,
     "CAUTION: " ++ age_group ++ " patient. " ++ base.2.2 ++
       " Age adjustment: " ++ age_adjustment)
  else base

/-- The record `calculate_dosage` returns; the fields absent from the
`unknown`/`error` dictionaries of the source are `none` there. -/
structure DosageResult where
  status : String
  message : String
  prescribed_dose : String
  ddd : Option String := none
  dose_ratio : Option ℚ := none
  age_group : Option String := none
  age_adjustment : Option String := none
  recommendation : String
deriving DecidableEq

/-- `calculate_dosage`: verify a prescribed dose against the DDD reference.
(The source also reads `patient_weight_kg` with default 70 and never uses
it.) -/
def calculate_dosage (atc_db : List DDDRecord) (age_db : List AgeRecord)
    (patient_info : PatientInfo) (medication : String)
    (prescribed_dose : ℚ) (dose_unit : String) : DosageResult :=
  let age := patient_info.patient_age.getD 0
  let age_group := categorize_age age
  match get_ddd atc_db medication with
  | none =>
    { status := "unknown",
      message := "No DDD data available for " ++ medication,
      prescribed_dose := fmtNum prescribed_dose ++ dose_unit,
      recommendation := "Verify dosage with formulary or physician" }
  | some ddd_info =>
    match normalize_dosage_unit prescribed_dose dose_unit ddd_info.unit with
    | none =>
      { status := "error",
        message := "Cannot convert " ++ dose_unit ++ " to " ++ ddd_info.unit,
        prescribed_dose := fmtNum prescribed_dose ++ dose_unit,
        recommendation := "Unit conversion failed" }
    | some prescribed_normalized =>
      let ddd_value := ddd_info.ddd
      let dose_ratio := if ddd_value > 0 then prescribed_normalized / ddd_value else 0
      let age_adjustment := get_age_adjustment age_db medication age_group
      let v := verify_dosage_safety dose_ratio age_group age_adjustment medication
      { status := v.1,
        message := v.2.1,
        prescribed_dose := fmtNum prescribed_dose ++ dose_unit,
        ddd := some (fmtNum ddd_value ++ ddd_info.unit),
        dose_ratio := some (roundTo2 dose_ratio),
        age_group := some age_group,
        age_adjustment := some age_adjustment,
        recommendation := v.2.2 }

/-! ### Interaction checker (backend/services/interaction_checker.py) -/

/-- An entry of the interaction index: `{severity, description}`. -/
structure Interaction where
  severity : String
  description : String
deriving DecidableEq

/-- The module-level `_interactions_index`: `none` models the index never
having been built; otherwise an association list keyed by sorted name
pairs, modelling the Python dict. -/
abbrev InteractionIndex := Option (List ((String × String) × Interaction))

/-- `tuple(sorted([a, b]))`: the unordered-pair key (lexicographic string
order, as Python compares strings by code point). -/
def sortPair (a b : String) : String × String := if a ≤ b then (a, b) else (b, a)

/-- `find_interaction`: single dictionary lookup under the sorted pair;
`none` when the index was never built or the pair is absent. -/
def find_interaction (idx : InteractionIndex) (drug1_normalized
    drug2_normalized : String) : Option Interaction :=
  match idx with
  | none => none
  | some m =>
    (m.find? fun e => e.1 = sortPair drug1_normalized drug2_normalized).map
      Prod.snd

/-- `get_recommendation`: fixed advisory string per severity tag, with the
`Unknown` entry doubling as the dictionary-lookup default. -/
def get_recommendation (severity : String) : String :=
  if severity = "Major" then
    "AVOID combination. Consult physician immediately. Alternative therapy recommended."
  else if severity = "Moderate" then
    "USE WITH CAUTION. Monitor patient closely. Dosage adjustment may be needed."
  else if severity = "Minor" then
    "Monitor patient. Generally safe but be aware of potential effects."
  else "Interaction severity unknown. Consult physician or pharmacist."

/-- One issue reported by `check_interactions`; it carries the original
(non-normalized) input names. -/
structure InteractionIssue where
  drug_1 : String
  drug_2 : String
  severity : String
  description : String
  recommendation : String
deriving DecidableEq

/-- The record `check_interactions` returns; `severity_summary` models the
Python dict as an association list (`[]` on the short-circuit path, where
the source returns the empty dict). -/
structure CheckResult where
  ok : Bool
  issues : List InteractionIssue
  severity_summary : List (String × ℕ)
  total_interactions : ℕ
deriving DecidableEq

/-- All ordered pairs (i, j) with i < j, in the nested-loop order of the
source. -/
def ordPairs {α : Type} : List α → List (α × α)
  | [] => []
  | x :: xs => (xs.map fun y => (x, y)) ++ ordPairs xs

/-- Number of issues carrying the given severity tag (the
`severity_counts[severity] += 1` tally). -/
def countSeverity (issues : List InteractionIssue) (s : String) : ℕ :=
  (issues.filter fun i => i.severity = s).length

/-- `check_interactions`: short-circuit for fewer than two medications,
otherwise one index lookup per unordered pair. -/
def check_interactions (idx : InteractionIndex) (medications : List String) :
    CheckResult :=
  if medications.length < 2 then
    { ok := true, issues := [], severity_summary := [], total_interactions := 0 }
  else
    let meds := medications.map fun m => (m, normalize_med_name m)
    let issues := (ordPairs meds).filterMap fun pq =>
      (find_interaction idx pq.1.2 pq.2.2).map fun inter =>
        { drug_1 := pq.1.1, drug_2 := pq.2.1, severity := inter.severity,
          description := inter.description,
          recommendation := get_recommendation inter.severity }
    { ok := issues.isEmpty,
      issues := issues,
      severity_summary :=
        [("Major", countSeverity issues "Major"),
         ("Moderate", countSeverity issues "Moderate"),
         ("Minor", countSeverity issues "Minor")],
      total_interactions := issues.length }

/-! ### Risk predictor (backend/services/risk_predictor.py) -/

/-- A medication entry `{name, dose, unit}`; `none` models an absent key. -/
structure Med where
  name : String
  dose : Option ℚ := none
  unit : Option String := none
deriving DecidableEq

/-- `get_age_group` of risk_predictor.py (a duplicate of `categorize_age`). -/
def get_age_group (age : ℤ) : String :=
  if age < 2 then "Infant"
  else if age < 12 then "Pediatric"
  else if age < 18 then "Adolescent"
  else if age < 65 then "Adult"
  else "Geriatric"

/-- `categorize_risk_level`: bands on the 0-10 safety score. -/
def categorize_risk_level (score : ℚ) : String :=
  if score ≥ 8 then "SAFE"
  else if score ≥ 6 then "LOW RISK"
  else if score ≥ 4 then "MODERATE RISK"
  else if score ≥ 2 then "HIGH RISK"
  else "CRITICAL"

/-- `severity_scores.get(severity, 10)` of `calculate_interaction_risk`. -/
def severityScore (severity : String) : ℚ :=
  if severity = "Major" then 80
  else if severity = "Moderate" then 40
  else if severity = "Minor" then 10
  else 10

/-- `severity_scores.get(severity, 0)`, the default-0 lookup used by the
max-severity comparison. -/
def severityScore0 (severity : String) : ℚ :=
  if severity = "Major" then 80
  else if severity = "Moderate" then 40
  else if severity = "Minor" then 10
  else 0

/-- The interaction-risk details dict; absent keys are modelled by the
defaults the consumers read them with (`total_interactions` 0,
`max_severity` none). -/
structure InterDetails where
  total_interactions : ℕ := 0
  max_severity : Option String := none
  message : String := ""
deriving DecidableEq

/-- `calculate_interaction_risk`: 0-100 danger sub-score from the
interaction check. -/
def calculate_interaction_risk (idx : InteractionIndex)
    (medications : List String) : ℚ × InterDetails :=
  if medications.length < 2 then
    (0, { message := "Single medication - no interaction risk" })
  else
    let r := check_interactions idx medications
    if r.ok then (0, { message := "No interactions detected" })
    else
      let total_score := (r.issues.map fun i => severityScore i.severity).sum
      let max_severity := r.issues.foldl
        (fun ms i =>
          if severityScore0 i.severity > severityScore0 ms then i.severity
          else ms)
        "Minor"
      let avg_score := min (total_score / r.issues.length) 100
      (avg_score,
       { total_interactions := r.total_interactions,
         max_severity := some max_severity,
         message := toString r.total_interactions ++
           " interaction(s) - highest: " ++ max_severity })

/-- One entry of the dosage-risk `issues` list. -/
structure DoseIssue where
  medication : String
  status : String
  message : String
  score : ℚ
deriving DecidableEq

/-- The dosage-risk details dict (`medications_checked` 0 and empty issues
model the message-only dictionaries of the early returns). -/
structure DosageDetails where
  medications_checked : ℕ := 0
  issues_found : ℕ := 0
  issues : List DoseIssue := []
  message : String := ""
deriving DecidableEq

/-- `status_scores.get(status, 5)` of `calculate_dosage_risk`. -/
def statusScore (status : String) : ℚ :=
  if status = "safe" then 0
  else if status = "low" then 10
  else if status = "high" then 40
  else if status = "very_high" then 75
  else if status = "unknown" then 5
  else if status = "error" then 5
  else 5

/-- `calculate_dosage_risk`: average danger weight over the medications that
carry dose data; medications missing `dose` or `unit` are skipped. -/
def calculate_dosage_risk (atc_db : List DDDRecord) (age_db : List AgeRecord)
    (medications : List Med) (patient_info : PatientInfo) :
    ℚ × DosageDetails :=
  if medications = [] then (0, { message := "No medications to check" })
  else
    let checked := medications.filterMap fun m =>
      match m.dose, m.unit with
      | some d, some u =>
        some (m, calculate_dosage atc_db age_db patient_info m.name d u)
      | _, _ => none
    let dosage_scores := checked.map fun mr => statusScore mr.2.status
    let issues := checked.filterMap fun mr =>
      if statusScore mr.2.status > 10 then
        some { medication := mr.1.name, status := mr.2.status,
               message := mr.2.message, score := statusScore mr.2.status }
      else none
    if dosage_scores = [] then (0, { message := "No dosage data available" })
    else
      (dosage_scores.sum / dosage_scores.length,
       { medications_checked := dosage_scores.length,
         issues_found := issues.length,
         issues := issues,
         message :=
           if issues.length ≠ 0 then
             toString issues.length ++ " dosage issue(s) detected"
           else "All dosages within range" })

/-- The polypharmacy details dict. -/
structure PolyDetails where
  medication_count : ℕ := 0
  age_adjustment : Bool := false
  message : String := ""
deriving DecidableEq

/-- `calculate_polypharmacy_risk`: step function of the medication count
with multiplicative age adjustments, capped at 100. -/
def calculate_polypharmacy_risk (medications : List Med)
    (patient_info : PatientInfo) : ℚ × PolyDetails :=
  let med_count := medications.length
  let age := patient_info.patient_age.getD 0
  let base : ℚ × String :=
    if med_count ≤ 1 then (0, "Single medication - no polypharmacy risk")
    else if med_count ≤ 4 then
      (5, toString med_count ++ " medications - minimal polypharmacy risk")
    else if med_count ≤ 6 then
      (25, toString med_count ++ " medications - moderate polypharmacy risk")
    else if med_count ≤ 8 then
      (50, toString med_count ++ " medications - increased polypharmacy risk")
    else (70, toString med_count ++ " medications - high polypharmacy risk")
  let s1 : ℚ × String :=
    if age > 65 then
      (min (base.1 * 1.15) 100, base.2 ++ " (increased for geriatric patient)")
    else base
  let s2 : ℚ × String :=
    if age > 0 ∧ age < 12 then
      (min (s1.1 * 1.1) 100, s1.2 ++ " (increased for pediatric patient)")
    else s1
  (s2.1,
   { medication_count := med_count,
     age_adjustment := age > 65 ∨ (age > 0 ∧ age < 12),
     message := s2.2 })

/-- `generate_recommendations`: deterministic rule list over the three
detail records and the patient info. -/
def generate_recommendations (interaction_details : InterDetails)
    (dosage_details : DosageDetails) (polypharmacy_details : PolyDetails)
    (patient_info : PatientInfo) : List String :=
  let recs1 : List String :=
    if interaction_details.total_interactions > 0 then
      let max_severity := interaction_details.max_severity.getD "Unknown"
      if max_severity = "Major" then
        ["⚠️ URGENT: Major drug interaction detected. Consult physician immediately.",
         "Consider alternative medications to avoid dangerous interactions."]
      else if max_severity = "Moderate" then
        ["⚠️ Moderate interactions present. Monitor patient closely for adverse effects."]
      else ["Minor interactions detected. Continue monitoring."]
    else []
  let recs2 : List String := dosage_details.issues.filterMap fun issue =>
    if issue.status = "very_high" then
      some ("⚠️ VERIFY: " ++ issue.medication ++
        " dose is significantly high. Check prescription.")
    else if issue.status = "high" then
      some ("Monitor " ++ issue.medication ++ " for potential adverse effects.")
    else if issue.status = "low" then
      some ("⚠️ " ++ issue.medication ++
        " dose may be subtherapeutic. Verify efficacy.")
    else none
  let med_count := polypharmacy_details.medication_count
  let recs3 : List String :=
    if med_count > 6 then
      ["⚠️ High medication count (" ++ toString med_count ++
        "). Review for potential deprescribing opportunities."]
    else if med_count > 4 then
      ["Consider medication reconciliation to reduce polypharmacy risks."]
    else []
  let age := patient_info.patient_age.getD 0
  let recs4 : List String :=
    (if age > 65 then
      ["Geriatric patient: Consider renal/hepatic function monitoring."]
     else []) ++
    (if age < 12 ∧ age > 0 then
      ["Pediatric patient: Ensure all doses are weight-based and verified."]
     else [])
  let recommendations := recs1 ++ recs2 ++ recs3 ++ recs4
  if recommendations = [] then
    ["✓ No major issues identified. Continue as prescribed with routine monitoring."]
  else recommendations

/-- One factor entry of the risk result: rounded 0-10 score and its weight
label (the free-form `details` sub-dicts are carried alongside in
`Factors`). -/
structure FactorEntry where
  score : ℚ
  weight : String
deriving DecidableEq

/-- The `factors` dict of a non-empty risk result. -/
structure Factors where
  interaction_risk : FactorEntry
  interaction_details : InterDetails
  dosage_risk : FactorEntry
  dosage_details : DosageDetails
  polypharmacy_risk : FactorEntry
  polypharmacy_details : PolyDetails
deriving DecidableEq

/-- The `patient_context` dict (`age` is `none` when the key is absent,
where the source shows the string `'unknown'`). -/
structure PatientContext where
  age : Option ℤ
  age_group : String
  medication_count : ℕ
deriving DecidableEq

/-- The record `predict_risk` returns.  `factors` is `none` on the
empty-medication path, where the source returns the empty dict; the source
also assigns `risk_score` twice in the single-medication branch with the
same value, which a Python dict collapses to one key. -/
structure RiskResult where
  risk_score : ℚ
  risk_level : String
  factors : Option Factors := none
  recommendations : List String
  patient_context : Option PatientContext := none
deriving DecidableEq

/-- `predict_risk`: fuse interaction, dosage and polypharmacy sub-scores
into one 0-10 safety score. -/
def predict_risk (idx : InteractionIndex) (atc_db : List DDDRecord)
    (age_db : List AgeRecord) (medications : List Med)
    (patient_info : PatientInfo) : RiskResult :=
  if medications = [] then
    { risk_score := 10.0,
      risk_level := "SAFE",
      factors := none,
      recommendations := ["No medications to analyze"] }
  else
    let med_names := medications.map Med.name
    if med_names.length = 1 then
      let dr := calculate_dosage_risk atc_db age_db medications patient_info
      let raw_risk := dr.1 * 0.3
      let safety_score := clampQ (10 - raw_risk / 10) 0 10
      { risk_score := roundTo1 safety_score,
        risk_level := categorize_risk_level safety_score,
        factors := some
          { interaction_risk := { score := 0.0, weight := "60%" },
            interaction_details :=
              { message := "No interactions (single medication)" },
            dosage_risk := { score := roundTo1 (dr.1 / 10), weight := "30%" },
            dosage_details := dr.2,
            polypharmacy_risk := { score := 0.0, weight := "10%" },
            polypharmacy_details := { message := "No polypharmacy risk" } },
        recommendations :=
          generate_recommendations {} dr.2 {} patient_info,
        patient_context := some
          { age := patient_info.patient_age,
            age_group := get_age_group (patient_info.patient_age.getD 0),
            medication_count := 1 } }
    else
      let ir := calculate_interaction_risk idx med_names
      let dr := calculate_dosage_risk atc_db age_db medications patient_info
      let pr := calculate_polypharmacy_risk medications patient_info
      let raw_risk := ir.1 * 0.6 + dr.1 * 0.3 + pr.1 * 0.1
      let safety_score := clampQ (10 - raw_risk / 10) 0 10
      { risk_score := roundTo1 safety_score,
        risk_level := categorize_risk_level safety_score,
        factors := some
          { interaction_risk := { score := roundTo1 (ir.1 / 10), weight := "60%" },
            interaction_details := ir.2,
            dosage_risk := { score := roundTo1 (dr.1 / 10), weight := "30%" },
            dosage_details := dr.2,
            polypharmacy_risk := { score := roundTo1 (pr.1 / 10), weight := "10%" },
            polypharmacy_details := pr.2 },
        recommendations := generate_recommendations ir.2 dr.2 pr.2 patient_info,
        patient_context := some
          { age := patient_info.patient_age,
            age_group := get_age_group (patient_info.patient_age.getD 0),
            medication_count := medications.length } }

/-! ### Alternative engine (backend/services/alternative_engine.py) -/

/-- Numeric value of a digit run. -/
def parseNatDigits (ds : List Char) : ℕ :=
  ds.foldl (fun n c => 10 * n + (c.toNat - '0'.toNat)) 0

/-- Match of `(\d+(?:\.\d+)?)\s*mg` (IGNORECASE) starting exactly at the
head of `l`, returning the numeric value of group 1.  As with the dosage
pattern of the normalizer, greedy parsing is the only candidate: no unit
letter is a digit, whitespace or a dot, so backtracking `\d+`, the optional
fraction group or `\s*` can never repair a failure. -/
def matchDoseNum (l : List Char) : Option ℚ :=
  let ds := l.takeWhile isPyDigit
  if ds = [] then none
  else
    let r1 := l.drop ds.length
    let fracDigits : List Char :=
      match r1 with
      | '.' :: r2 => r2.takeWhile isPyDigit
      | _ => []
    let consumed :=
      if fracDigits = [] then ds.length else ds.length + 1 + fracDigits.length
    let r3 := l.drop consumed
    let r4 := r3.drop (r3.takeWhile isPyWS).length
    match r4 with
    | a :: b :: _ =>
      if pyLowerChar a = 'm' ∧ pyLowerChar b = 'g' then
        some ((parseNatDigits ds : ℚ) +
          (parseNatDigits fracDigits : ℚ) / (10 ^ fracDigits.length))
      else none
    | _ => none

/-- `re.search`: try the pattern at each position, left to right. -/
def searchDoseAux : List Char → Option ℚ
  | [] => none
  | c :: rest =>
    match matchDoseNum (c :: rest) with
    | some v => some v
    | none => searchDoseAux rest

/-- `extract_dose_from_text`: first mg-dose found in the text, if any. -/
def extract_dose_from_text (medication_text : String) : Option ℚ :=
  searchDoseAux medication_text.data

/-- `extract_context_keywords`: categorical context tags from keyword sets
(each group contributes its tag at most once, in source order). -/
def extract_context_keywords (medication_text : String) : List String :=
  let t := pyLower medication_text
  (if ["pain", "headache", "migraine", "toothache", "ache"].any
      (fun w => strContains t w) then ["pain"] else []) ++
  (if strContains t "fever" || strContains t "pyrexia" then ["fever"]
   else []) ++
  (if strContains t "inflammation" || strContains t "inflammatory" then
    ["inflammation"] else []) ++
  (if ["heart", "stroke", "clot", "antiplatelet", "cardiovascular"].any
      (fun w => strContains t w) then ["cardiovascular"] else [])

/-- `determine_therapeutic_intent`: substring rule table with the
dose/context special case for aspirin; returns (intent, target ATC
prefixes). -/
def determine_therapeutic_intent (medication_name : String)
    (dose_mg : Option ℚ) (context_keywords : List String) :
    String × List String :=
  let med_lower := pyLower medication_name
  if strContains med_lower "aspirin" ||
      strContains med_lower "acetylsalicylic" then
    if (match dose_mg with | some d => decide (d ≤ 150) | none => false) then
      ("antiplatelet", ["B01AC"])
    else if (match dose_mg with | some d => decide (d ≥ 300) | none => false) then
      ("analgesic/antipyretic", ["N02BA", "N02BE", "M01A"])
    else if context_keywords.contains "pain" ||
        context_keywords.contains "fever" then
      ("analgesic/antipyretic", ["N02BA", "N02BE", "M01A"])
    else if context_keywords.contains "cardiovascular" then
      ("antiplatelet", ["B01AC"])
    else ("antiplatelet", ["B01AC"])
  else if ["paracetamol", "acetaminophen", "crocin", "dolo"].any
      (fun w => strContains med_lower w) then
    ("analgesic/antipyretic", ["N02BE"])
  else if ["ibuprofen", "diclofenac", "naproxen", "indomethacin"].any
      (fun w => strContains med_lower w) then
    ("analgesic/anti-inflammatory", ["M01A"])
  else if ["clopidogrel", "prasugrel", "ticagrelor", "plavix"].any
      (fun w => strContains med_lower w) then
    ("antiplatelet", ["B01AC"])
  else if ["warfarin", "heparin", "rivaroxaban", "apixaban"].any
      (fun w => strContains med_lower w) then
    ("anticoagulant", ["B01A"])
  else if ["amlodipine", "nifedipine"].any
      (fun w => strContains med_lower w) then
    ("calcium_channel_blocker", ["C08CA"])
  else if ["atenolol", "metoprolol", "propranolol"].any
      (fun w => strContains med_lower w) then
    ("beta_blocker", ["C07AB"])
  else if ["enalapril", "lisinopril", "ramipril"].any
      (fun w => strContains med_lower w) then
    ("ace_inhibitor", ["C09AA"])
  else if strContains med_lower "metformin" then ("biguanide", ["A10BA"])
  else if ["glipizide", "glyburide", "glimepiride"].any
      (fun w => strContains med_lower w) then
    ("sulfonylurea", ["A10BB"])
  else ("unknown", [])

/-- One row of the ATC classification table used by the alternative
engine. -/
structure AtcRecord where
  atc_code : String
  drug_name : String
  drug_name_normalized : String
deriving DecidableEq

/-- One row of the WHO Essential Medicines List table. -/
structure EmlRecord where
  medicine : String
  atc_code : String
  category : String
  medicine_normalized : String
deriving DecidableEq

/-- One row of Medicine_Details.csv (its 'Medicine Name' and 'Composition'
columns). -/
structure MedDetailRecord where
  medicine_name : String
  composition : String
deriving DecidableEq

/-- An alternative-medication candidate. -/
structure Alternative where
  name : String
  atc_code : Option String
  source : String
  reason : String
  priority : ℕ
deriving DecidableEq

/-- `find_alternatives_by_atc_level4`: for each target prefix, append the
ATC-table matches (priority 1) and then the EML matches (priority 2); only
the EML branch checks the accumulated list for duplicates. -/
def find_alternatives_by_atc_level4 (atc_db : List AtcRecord)
    (eml_db : List EmlRecord) (target_atc_prefixes : List String)
    (exclude_drug : String) : List Alternative :=
  let exclude_norm := normalize_med_name exclude_drug
  target_atc_prefixes.foldl
    (fun alternatives pfx =>
      let afterAtc := alternatives ++ atc_db.filterMap fun row =>
        if strStartsWith row.atc_code pfx ∧
            ¬ normalize_med_name row.drug_name = exclude_norm then
          some { name := row.drug_name, atc_code := some row.atc_code,
                 source := "ATC Database",
                 reason := "Same therapeutic class (" ++ pfx ++ ")",
                 priority := 1 }
        else none
      eml_db.foldl
        (fun alts row =>
          if strStartsWith row.atc_code pfx then
            let med_norm := normalize_med_name row.medicine
            if med_norm = exclude_norm then alts
            else if alts.any fun alt =>
                normalize_med_name alt.name = med_norm then alts
            else
              alts ++ [{ name := row.medicine, atc_code := some row.atc_code,
                         source := "WHO Essential Medicines List",
                         reason := "WHO recommended alternative (" ++ pfx ++ ")",
                         priority := 2 }]
          else alts)
        afterAtc)
    []

/-- `find_same_ingredient_alternatives`: extract the leading ingredient
token of the queried drug's composition (text before the first digit,
comma or plus) and match it as a (case-insensitive) substring of other
compositions.  pandas `str.contains` actually treats the needle as a
regular expression; it is modelled as the plain substring test, which
agrees whenever the ingredient contains no regex metacharacter. -/
def find_same_ingredient_alternatives (med_details : List MedDetailRecord)
    (medication_name : String) : List Alternative :=
  if med_details = [] then []
  else
    let med_norm := normalize_med_name medication_name
    match med_details.find? fun r =>
        normalize_med_name r.medicine_name = med_norm with
    | none => []
    | some original =>
      let original_composition := pyLower original.composition
      let ingredient := String.mk (pyStrip
        (original_composition.data.takeWhile fun c =>
          ! (isPyDigit c || c == ',' || c == '+')))
      if ingredient.data.length > 3 then
        med_details.filterMap fun row =>
          if strContains (pyLower row.composition) ingredient ∧
              ¬ normalize_med_name row.medicine_name = med_norm then
            some { name := row.medicine_name, atc_code := none,
                   source := "Same Active Ingredient",
                   reason := "Contains " ++ ingredient,
                   priority := 0 }
          else none
      else []

/-- The `seen_names` deduplication loop of `suggest_alternatives`: keep the
first occurrence of each normalized name. -/
def dedupByNormAux : List String → List Alternative → List Alternative
  | _, [] => []
  | seen, a :: rest =>
    let n := normalize_med_name a.name
    if n ∈ seen then dedupByNormAux seen rest
    else a :: dedupByNormAux (n :: seen) rest

/-- Deduplicate by normalized name, first occurrence wins. -/
def dedupByNorm (l : List Alternative) : List Alternative := dedupByNormAux [] l

/-- Candidate order for `list.sort(key=lambda x: x['priority'])`. -/
def priorityLE (a b : Alternative) : Prop := a.priority ≤ b.priority

instance : DecidableRel priorityLE := fun a b =>
  inferInstanceAs (Decidable (a.priority ≤ b.priority))

instance : IsTotal Alternative priorityLE :=
  ⟨fun a b => Nat.le_total a.priority b.priority⟩

instance : IsTrans Alternative priorityLE :=
  ⟨fun _ _ _ hab hbc => Nat.le_trans hab hbc⟩

/-- The `search_text` of `suggest_alternatives`: the dose text when it is
truthy, else the medication name. -/
def suggest_search_text (medication_name : String)
    (dose_text : Option String) : String :=
  match dose_text with
  | some t => if t = "" then medication_name else t
  | none => medication_name

/-- The `all_alternatives` candidate list of `suggest_alternatives`:
same-ingredient candidates followed by the per-prefix ATC/EML candidates
(only generated when the resolved prefix list is nonempty). -/
def suggest_all_candidates (med_details : List MedDetailRecord)
    (atc_db : List AtcRecord) (eml_db : List EmlRecord)
    (medication_name : String) (dose_text : Option String) :
    List Alternative :=
  let search_text := suggest_search_text medication_name dose_text
  let dose_mg := extract_dose_from_text search_text
  let context_keywords := extract_context_keywords search_text
  let intent := determine_therapeutic_intent medication_name dose_mg
    context_keywords
  find_same_ingredient_alternatives med_details medication_name ++
    (if intent.2 ≠ [] then
      find_alternatives_by_atc_level4 atc_db eml_db intent.2 medication_name
     else [])

/-- `suggest_alternatives`: dose/context extraction, intent resolution,
candidate generation, dedup, stable ascending sort by priority, truncation.
Python's stable `list.sort` is modelled by insertion sort, which is stable
for `≤` on the key, hence produces the identical list. -/
def suggest_alternatives (med_details : List MedDetailRecord)
    (atc_db : List AtcRecord) (eml_db : List EmlRecord)
    (medication_name : String) (dose_text : Option String)
    (max_results : ℕ) : List Alternative :=
  let unique_alternatives := dedupByNorm
    (suggest_all_candidates med_details atc_db eml_db medication_name
      dose_text)
  (List.insertionSort priorityLE unique_alternatives).take max_results

/-! ### Spec-side definitions (written from the specification's words, for
the refinement claims C4) -/

/-- The ratio bands of the spec: <0.5 low, [0.5,1.5] safe, (1.5,2.0] high,
>2.0 very_high. -/
def spec_dosage_status (ratio : ℚ) : String :=
  if ratio < 0.5 then "low"
  else if ratio ≤ 1.5 then "safe"
  else if ratio ≤ 2.0 then "high"
  else "very_high"

/-- The fixed per-band recommendation template of the spec. -/
def spec_dosage_recommendation (ratio : ℚ) : String :=
  if ratio < 0.5 then "Verify therapeutic efficacy. May be subtherapeutic."
  else if ratio ≤ 1.5 then "Continue as prescribed. Monitor patient response."
  else if ratio ≤ 2.0 then
    "Monitor for adverse effects. Dose may be intentionally high for specific indication."
  else "VERIFY PRESCRIPTION. Consult physician. Risk of toxicity."

/-- The escalated status of the spec: at least `high`, and `very_high`
above ratio 1.5. -/
def spec_escalated_status (ratio : ℚ) : String :=
  if ratio > 1.5 then "very_high" else "high"

/-! ### Helper lemmas -/

/-- No character lowercases to `Â` (U+00C2): the A-Z branch lands in a-z,
the `Â` branch returns `â`, and the identity branch excludes `Â` itself. -/
theorem pyLowerChar_ne_Acirc (c : Char) : pyLowerChar c ≠ 'Â' := by
  unfold pyLowerChar
  split_ifs with h1 h2
  · intro hEq
    have hubound : c.toNat ≤ 90 := h1.2
    have hv : (c.toNat + 32).isValidChar := Or.inl (by omega)
    have hto : (Char.ofNat (c.toNat + 32)).toNat = c.toNat + 32 := by
      unfold Char.ofNat
      rw [dif_pos hv]
      rfl
    rw [hEq] at hto
    have h194 : (194 : ℕ) = c.toNat + 32 := hto
    omega
  · intro hEq
    exact absurd hEq (by decide)
  · exact h2

/-- Consequently no string lowercases to the dead mojibake key of the
conversion table. -/
theorem pyLower_ne_mojibake (s : String) : pyLower s ≠ "Âµg" := by
  intro h
  have hdata : pyLowerList s.data = "Âµg".data := congrArg String.data h
  cases hl : s.data with
  | nil => rw [hl] at hdata; exact absurd hdata (by decide)
  | cons c t =>
    rw [hl] at hdata
    have : pyLowerChar c = 'Â' := by
      have := congrArg (fun l => l.headD ' ') hdata
      simpa [pyLowerList] using this
    exact pyLowerChar_ne_Acirc c this

/-- `convFactor` succeeds exactly on the five literal keys of the table. -/
theorem convFactor_isSome_iff (u : String) :
    (convFactor u).isSome ↔
      ("mg" : String) = u ∨ ("g" : String) = u ∨ ("mcg" : String) = u ∨
        ("ug" : String) = u ∨ ("Âµg" : String) = u := by
  unfold convFactor conversions_to_mg
  by_cases h1 : ("mg" : String) = u <;>
    by_cases h2 : ("g" : String) = u <;>
    by_cases h3 : ("mcg" : String) = u <;>
    by_cases h4 : ("ug" : String) = u <;>
    by_cases h5 : ("Âµg" : String) = u <;>
    simp [List.find?, h1, h2, h3, h4, h5]

/-- `normalize_dosage_unit` succeeds iff both lowered units are table
keys. -/
theorem normalize_dosage_unit_isSome_iff (v : ℚ) (u t : String) :
    (normalize_dosage_unit v u t).isSome ↔
      (convFactor (pyLower u)).isSome ∧ (convFactor (pyLower t)).isSome := by
  unfold normalize_dosage_unit
  cases hc : convFactor (pyLower u) <;> cases hd : convFactor (pyLower t) <;>
    simp [hc, hd]

/-- The prescribed unit `lb` never converts. -/
theorem normalize_dosage_unit_lb (v : ℚ) (t : String) :
    normalize_dosage_unit v "lb" t = none := by
  unfold normalize_dosage_unit
  have h : convFactor (pyLower "lb") = none := rfl
  cases hct : convFactor (pyLower t) <;> simp [h, hct]

/-! ### Claim theorems -/

/-- C2: for every pair of normalized drug names (a, b) and any state of the
interaction index, `find_interaction` is symmetric:
`find_interaction idx a b = find_interaction idx b a`. -/
theorem C2_find_interaction_symm (idx : InteractionIndex) (a b : String) :
    find_interaction idx a b = find_interaction idx b a := by
  have hpair : sortPair a b = sortPair b a := by
    unfold sortPair
    by_cases hab : a ≤ b <;> by_cases hba : b ≤ a
    · rw [if_pos hab, if_pos hba, le_antisymm hab hba]
    · rw [if_pos hab, if_neg hba]
    · rw [if_neg hab, if_pos hba]
    · exact absurd ((le_total a b).resolve_left hab) hba
  unfold find_interaction
  cases idx with
  | none => rfl
  | some m => rw [hpair]

/-- C9: for every medication list of length < 2 and any state of the
interaction index, `check_interactions` returns ok = true, no issues and
total 0 (a constant record, hence independent of the index). -/
theorem C9_check_interactions_short (idx : InteractionIndex)
    (medications : List String) (h : medications.length < 2) :
    check_interactions idx medications =
      { ok := true, issues := [], severity_summary := [],
        total_interactions := 0 } := by
  unfold check_interactions
  rw [if_pos h]

/-- C9 witness: a singleton list short-circuits even when the index holds
an entry. -/
theorem C9_witness :
    check_interactions
        (some [(("a", "b"), { severity := "Major", description := "d" })])
        ["x"] =
      { ok := true, issues := [], severity_summary := [],
        total_interactions := 0 } :=
  C9_check_interactions_short
    (some [(("a", "b"), { severity := "Major", description := "d" })])
    ["x"] (by decide)

/-- C5: `calculate_dosage` distinguishes its failure modes: a missing DDD
record yields status `unknown` with the verify-with-formulary
recommendation; a present DDD record with a failed unit conversion yields
status `error` (in particular for the unsupported prescribed unit `lb`);
and the two statuses are distinct.  Neither failure is an exception: both
are ordinary records. -/
theorem C5_dosage_failure_modes (atc_db : List DDDRecord)
    (age_db : List AgeRecord) (pinfo : PatientInfo) (med : String)
    (dose : ℚ) :
    (∀ du : String, get_ddd atc_db med = none →
      (calculate_dosage atc_db age_db pinfo med dose du).status = "unknown" ∧
      (calculate_dosage atc_db age_db pinfo med dose du).recommendation =
        "Verify dosage with formulary or physician") ∧
    (∀ (du : String) (r : DDDRecord), get_ddd atc_db med = some r →
      normalize_dosage_unit dose du r.unit = none →
      (calculate_dosage atc_db age_db pinfo med dose du).status = "error" ∧
      (calculate_dosage atc_db age_db pinfo med dose du).recommendation =
        "Unit conversion failed") ∧
    (∀ r : DDDRecord, get_ddd atc_db med = some r →
      (calculate_dosage atc_db age_db pinfo med dose "lb").status = "error") ∧
    ("unknown" : String) ≠ "error" := by
  refine ⟨fun du hnone => ?_, fun du r hsome hconv => ?_, fun r hsome => ?_,
    by decide⟩
  · refine ⟨?_, ?_⟩ <;> simp [calculate_dosage, hnone]
  · refine ⟨?_, ?_⟩ <;> simp [calculate_dosage, hsome, hconv]
  · simp [calculate_dosage, hsome, normalize_dosage_unit_lb]

/-- C5 witness: with a concrete DDD table, an unknown drug reports
`unknown`, and a known drug prescribed in pounds reports `error`. -/
theorem C5_witness :
    ((calculate_dosage
        [{ atc_code := "A10BA02", drug_name := "Metformin", ddd := 2000,
           unit := "mg", route := "O", drug_name_normalized := "metformin" }]
        [] {} "Unknowndrug" 5 "mg").status = "unknown" ∧
      (calculate_dosage
        [{ atc_code := "A10BA02", drug_name := "Metformin", ddd := 2000,
           unit := "mg", route := "O", drug_name_normalized := "metformin" }]
        [] {} "Unknowndrug" 5 "mg").recommendation =
        "Verify dosage with formulary or physician") ∧
    (calculate_dosage
        [{ atc_code := "A10BA02", drug_name := "Metformin", ddd := 2000,
           unit := "mg", route := "O", drug_name_normalized := "metformin" }]
        [] {} "Metformin" 2000 "lb").status = "error" := by
  constructor
  · exact (C5_dosage_failure_modes
      [{ atc_code := "A10BA02", drug_name := "Metformin", ddd := 2000,
         unit := "mg", route := "O", drug_name_normalized := "metformin" }]
      [] {} "Unknowndrug" 5).1 "mg" (by with_unfolding_all decide)
  · exact (C5_dosage_failure_modes
      [{ atc_code := "A10BA02", drug_name := "Metformin", ddd := 2000,
         unit := "mg", route := "O", drug_name_normalized := "metformin" }]
      [] {} "Metformin" 2000).2.2.1
      { atc_code := "A10BA02", drug_name := "Metformin", ddd := 2000,
        unit := "mg", route := "O", drug_name_normalized := "metformin" }
      (by with_unfolding_all decide)

/-- C10: the unit conversion succeeds exactly when both the prescribed
unit and the reference record's unit lowercased are in {mg, g, mcg, ug}
(the table's fifth, mojibake key is unreachable); consequently
`calculate_dosage` returns `error` even for the supported prescribed unit
`mg` whenever the matched DDD record's own unit (here `ml`) is outside the
table. -/
theorem C10_conversion_table (value : ℚ) (unit target_unit : String) :
    ((normalize_dosage_unit value unit target_unit).isSome ↔
      (pyLower unit = "mg" ∨ pyLower unit = "g" ∨ pyLower unit = "mcg" ∨
        pyLower unit = "ug") ∧
      (pyLower target_unit = "mg" ∨ pyLower target_unit = "g" ∨
        pyLower target_unit = "mcg" ∨ pyLower target_unit = "ug")) ∧
    (∀ (atc_db : List DDDRecord) (age_db : List AgeRecord)
        (pinfo : PatientInfo) (med : String) (r : DDDRecord),
      get_ddd atc_db med = some r → r.unit = "ml" →
      (calculate_dosage atc_db age_db pinfo med value "mg").status =
        "error") := by
  constructor
  · rw [normalize_dosage_unit_isSome_iff, convFactor_isSome_iff,
      convFactor_isSome_iff]
    have hu := pyLower_ne_mojibake unit
    have ht := pyLower_ne_mojibake target_unit
    constructor
    · rintro ⟨h1, h2⟩
      refine ⟨?_, ?_⟩
      · rcases h1 with h | h | h | h | h
        · exact Or.inl h.symm
        · exact Or.inr (Or.inl h.symm)
        · exact Or.inr (Or.inr (Or.inl h.symm))
        · exact Or.inr (Or.inr (Or.inr h.symm))
        · exact absurd h.symm hu
      · rcases h2 with h | h | h | h | h
        · exact Or.inl h.symm
        · exact Or.inr (Or.inl h.symm)
        · exact Or.inr (Or.inr (Or.inl h.symm))
        · exact Or.inr (Or.inr (Or.inr h.symm))
        · exact absurd h.symm ht
    · rintro ⟨h1, h2⟩
      constructor
      · rcases h1 with h | h | h | h
        · exact Or.inl h.symm
        · exact Or.inr (Or.inl h.symm)
        · exact Or.inr (Or.inr (Or.inl h.symm))
        · exact Or.inr (Or.inr (Or.inr (Or.inl h.symm)))
      · rcases h2 with h | h | h | h
        · exact Or.inl h.symm
        · exact Or.inr (Or.inl h.symm)
        · exact Or.inr (Or.inr (Or.inl h.symm))
        · exact Or.inr (Or.inr (Or.inr (Or.inl h.symm)))
  · intro atc_db age_db pinfo med r hsome hml
    have hconv : normalize_dosage_unit value "mg" r.unit = none := by
      rw [hml]
      rfl
    simp [calculate_dosage, hsome, hconv]

/-- C10 witness: a DDD record measured in `ml` makes a milligram
prescription fail with `error`. -/
theorem C10_witness :
    (calculate_dosage
        [{ atc_code := "X", drug_name := "Syrupdrug", ddd := 10,
           unit := "ml", route := "O", drug_name_normalized := "syrupdrug" }]
        [] {} "Syrupdrug" 5 "mg").status = "error" :=
  (C10_conversion_table 5 "mg" "ml").2
    [{ atc_code := "X", drug_name := "Syrupdrug", ddd := 10,
       unit := "ml", route := "O", drug_name_normalized := "syrupdrug" }]
    [] {} "Syrupdrug"
    { atc_code := "X", drug_name := "Syrupdrug", ddd := 10,
      unit := "ml", route := "O", drug_name_normalized := "syrupdrug" }
    (by with_unfolding_all decide) rfl

/-- C4: `verify_dosage_safety` classifies the ratio into the spec's bands
(low / safe / high / very_high at 0.5, 1.5, 2.0), and for Pediatric,
Infant or Geriatric patients with ratio > 1 it escalates the status to
`high`, or to `very_high` above ratio 1.5, adding the cautionary note that
references the age-specific usage pattern to the recommendation. -/
theorem C4_verify_dosage_safety (ratio : ℚ) (ag adj med : String) :
    ((verify_dosage_safety ratio ag adj med).1 =
      if (ag = "Pediatric" ∨ ag = "Infant" ∨ ag = "Geriatric") ∧ ratio > 1.0
      then spec_escalated_status ratio else spec_dosage_status ratio) ∧
    ((ag = "Pediatric" ∨ ag = "Infant" ∨ ag = "Geriatric") ∧ ratio > 1.0 →
      (verify_dosage_safety ratio ag adj med).2.2 =
        "CAUTION: " ++ ag ++ " patient. " ++ spec_dosage_recommendation ratio ++
          " Age adjustment: " ++ adj) := by
  constructor
  · simp only [verify_dosage_safety, spec_escalated_status, spec_dosage_status]
    split_ifs <;> simp_all
  · intro h
    simp only [verify_dosage_safety, spec_dosage_recommendation]
    split_ifs <;> simp_all

/-- C4 witness: a pediatric patient at ratio 1.2 is escalated from `safe`
to `high` with the cautionary recommendation. -/
theorem C4_witness :
    (verify_dosage_safety 1.2 "Pediatric" "Weight-based dosing" "x").1 =
      "high" ∧
    (verify_dosage_safety 1.2 "Pediatric" "Weight-based dosing" "x").2.2 =
      "CAUTION: " ++ "Pediatric" ++ " patient. " ++
        spec_dosage_recommendation 1.2 ++ " Age adjustment: " ++
        "Weight-based dosing" := by
  have h := C4_verify_dosage_safety 1.2 "Pediatric" "Weight-based dosing" "x"
  refine ⟨?_, h.2 ⟨Or.inl rfl, by norm_num⟩⟩
  rw [h.1, if_pos ⟨Or.inl rfl, by norm_num⟩]
  with_unfolding_all decide

/-- The status `verify_dosage_safety` returns is always one of the four
band names. -/
theorem verify_status_mem (ratio : ℚ) (ag adj med : String) :
    (verify_dosage_safety ratio ag adj med).1 = "low" ∨
    (verify_dosage_safety ratio ag adj med).1 = "safe" ∨
    (verify_dosage_safety ratio ag adj med).1 = "high" ∨
    (verify_dosage_safety ratio ag adj med).1 = "very_high" := by
  simp only [verify_dosage_safety]
  split_ifs <;> simp

/-- C8 counterexample: on the `unknown` outcome the returned record does
not carry the ddd, dose-ratio, age-group or age-adjustment fields, so the
claim that every outcome includes all fields fails at this input. -/
theorem C8_counterexample :
    (calculate_dosage [] [] {} "foo" 5 "mg").status = "unknown" ∧
    (calculate_dosage [] [] {} "foo" 5 "mg").ddd = none ∧
    (calculate_dosage [] [] {} "foo" 5 "mg").dose_ratio = none ∧
    (calculate_dosage [] [] {} "foo" 5 "mg").age_group = none ∧
    (calculate_dosage [] [] {} "foo" 5 "mg").age_adjustment = none := by
  with_unfolding_all decide

/-- C8 amended: `calculate_dosage` always includes status, message,
formatted prescribed dose and recommendation; the formatted DDD, dose
ratio, age group and age-adjustment text are included exactly on the
successful outcomes and absent on the `unknown` and `error` outcomes. -/
theorem C8_field_presence (atc_db : List DDDRecord) (age_db : List AgeRecord)
    (pinfo : PatientInfo) (med : String) (dose : ℚ) (du : String) :
    ((calculate_dosage atc_db age_db pinfo med dose du).status ≠ "unknown" ∧
      (calculate_dosage atc_db age_db pinfo med dose du).status ≠ "error" →
      (calculate_dosage atc_db age_db pinfo med dose du).ddd.isSome ∧
      (calculate_dosage atc_db age_db pinfo med dose du).dose_ratio.isSome ∧
      (calculate_dosage atc_db age_db pinfo med dose du).age_group.isSome ∧
      (calculate_dosage atc_db age_db pinfo med dose du).age_adjustment.isSome) ∧
    ((calculate_dosage atc_db age_db pinfo med dose du).status = "unknown" ∨
      (calculate_dosage atc_db age_db pinfo med dose du).status = "error" →
      (calculate_dosage atc_db age_db pinfo med dose du).ddd = none ∧
      (calculate_dosage atc_db age_db pinfo med dose du).dose_ratio = none ∧
      (calculate_dosage atc_db age_db pinfo med dose du).age_group = none ∧
      (calculate_dosage atc_db age_db pinfo med dose du).age_adjustment = none) := by
  cases hg : get_ddd atc_db med with
  | none =>
    constructor
    · intro hne
      exact absurd (by simp [calculate_dosage, hg]) hne.1
    · intro _
      refine ⟨?_, ?_, ?_, ?_⟩ <;> simp [calculate_dosage, hg]
  | some r0 =>
    cases hn : normalize_dosage_unit dose du r0.unit with
    | none =>
      constructor
      · intro hne
        exact absurd (by simp [calculate_dosage, hg, hn]) hne.2
      · intro _
        refine ⟨?_, ?_, ?_, ?_⟩ <;> simp [calculate_dosage, hg, hn]
    | some pn =>
      constructor
      · intro _
        refine ⟨?_, ?_, ?_, ?_⟩ <;> simp [calculate_dosage, hg, hn]
      · intro hst
        exfalso
        have hs : (calculate_dosage atc_db age_db pinfo med dose du).status =
            (verify_dosage_safety (if r0.ddd > 0 then pn / r0.ddd else 0)
              (categorize_age (pinfo.patient_age.getD 0))
              (get_age_adjustment age_db med
                (categorize_age (pinfo.patient_age.getD 0))) med).1 := by
          simp [calculate_dosage, hg, hn]
        rcases verify_status_mem (if r0.ddd > 0 then pn / r0.ddd else 0)
            (categorize_age (pinfo.patient_age.getD 0))
            (get_age_adjustment age_db med
              (categorize_age (pinfo.patient_age.getD 0))) med
          with h' | h' | h' | h' <;>
          rcases hst with h | h <;> rw [hs, h'] at h <;>
          exact absurd h (by decide)

/-- C8 witness: on a successful verification every optional field is
present, and on the unknown outcome every optional field is absent. -/
theorem C8_witness :
    ((calculate_dosage
        [{ atc_code := "A10BA02", drug_name := "Metformin", ddd := 2000,
           unit := "mg", route := "O", drug_name_normalized := "metformin" }]
        [] {} "Metformin" 2000 "mg").ddd.isSome ∧
      (calculate_dosage
        [{ atc_code := "A10BA02", drug_name := "Metformin", ddd := 2000,
           unit := "mg", route := "O", drug_name_normalized := "metformin" }]
        [] {} "Metformin" 2000 "mg").dose_ratio.isSome ∧
      (calculate_dosage
        [{ atc_code := "A10BA02", drug_name := "Metformin", ddd := 2000,
           unit := "mg", route := "O", drug_name_normalized := "metformin" }]
        [] {} "Metformin" 2000 "mg").age_group.isSome ∧
      (calculate_dosage
        [{ atc_code := "A10BA02", drug_name := "Metformin", ddd := 2000,
           unit := "mg", route := "O", drug_name_normalized := "metformin" }]
        [] {} "Metformin" 2000 "mg").age_adjustment.isSome) ∧
    (calculate_dosage [] [] {} "bar" 5 "mg").age_group = none := by
  constructor
  · exact (C8_field_presence
      [{ atc_code := "A10BA02", drug_name := "Metformin", ddd := 2000,
         unit := "mg", route := "O", drug_name_normalized := "metformin" }]
      [] {} "Metformin" 2000 "mg").1 (by with_unfolding_all decide)
  · exact ((C8_field_presence [] [] {} "bar" 5 "mg").2
      (Or.inl (by with_unfolding_all decide))).2.2.1

/-- C6: for a medication whose (lowercased) name contains aspirin or
acetylsalicylic, `determine_therapeutic_intent` resolves: dose ≤ 150 mg to
antiplatelet with prefixes [B01AC]; dose ≥ 300 mg to analgesic/antipyretic
with prefixes [N02BA, N02BE, M01A]; with no numeric dose, pain or fever
context to analgesic and otherwise cardiovascular context to antiplatelet;
with neither dose nor context the default is antiplatelet; and the
concrete context "Aspirin 75mg" resolves to antiplatelet / B01AC. -/
theorem C6_aspirin_intent (name : String) (dose_mg : Option ℚ) (ctx : List String)
    (h : strContains (pyLower name) "aspirin" = true ∨
      strContains (pyLower name) "acetylsalicylic" = true) :
    (∀ d : ℚ, dose_mg = some d → d ≤ 150 →
      determine_therapeutic_intent name dose_mg ctx = ("antiplatelet", ["B01AC"])) ∧
    (∀ d : ℚ, dose_mg = some d → d ≥ 300 →
      determine_therapeutic_intent name dose_mg ctx =
        ("analgesic/antipyretic", ["N02BA", "N02BE", "M01A"])) ∧
    (dose_mg = none → (ctx.contains "pain" = true ∨ ctx.contains "fever" = true) →
      determine_therapeutic_intent name dose_mg ctx =
        ("analgesic/antipyretic", ["N02BA", "N02BE", "M01A"])) ∧
    (dose_mg = none → ctx.contains "pain" = false → ctx.contains "fever" = false →
      ctx.contains "cardiovascular" = true →
      determine_therapeutic_intent name dose_mg ctx = ("antiplatelet", ["B01AC"])) ∧
    (dose_mg = none → ctx = [] →
      determine_therapeutic_intent name dose_mg ctx = ("antiplatelet", ["B01AC"])) ∧
    determine_therapeutic_intent "Aspirin" (extract_dose_from_text "Aspirin 75mg")
      (extract_context_keywords "Aspirin 75mg") = ("antiplatelet", ["B01AC"]) := by
  refine ⟨?_, ?_, ?_, ?_, ?_, by with_unfolding_all decide⟩
  · intro d hd hle
    subst hd
    rcases h with h | h <;> simp [determine_therapeutic_intent, h, hle]
  · intro d hd hge
    subst hd
    have hnle : ¬ d ≤ 150 := by linarith
    rcases h with h | h <;> simp [determine_therapeutic_intent, h, hnle, hge]
  · intro hd hpf
    subst hd
    have hpf' : ("pain" ∈ ctx) ∨ ("fever" ∈ ctx) := by
      rcases hpf with hp | hp
      · exact Or.inl (by simpa using hp)
      · exact Or.inr (by simpa using hp)
    rcases h with h | h <;> rcases hpf' with hp | hp <;>
      simp [determine_therapeutic_intent, h, hp]
  · intro hd hp hf hc
    subst hd
    have hp' : ("pain" : String) ∉ ctx := by simpa using hp
    have hf' : ("fever" : String) ∉ ctx := by simpa using hf
    have hc' : ("cardiovascular" : String) ∈ ctx := by simpa using hc
    rcases h with h | h <;>
      simp [determine_therapeutic_intent, h, hp', hf', hc']
  · intro hd hctx
    subst hd
    subst hctx
    rcases h with h | h <;> simp [determine_therapeutic_intent, h]

/-- C6 witness: a 100 mg aspirin dose resolves to the antiplatelet
intent. -/
theorem C6_witness :
    determine_therapeutic_intent "aspirin" (some 100) [] =
      ("antiplatelet", ["B01AC"]) :=
  (C6_aspirin_intent "aspirin" (some 100) [] (Or.inl (by decide))).1 100 rfl
    (by norm_num)

/-- The interaction sub-score is 0 for fewer than two medications. -/
theorem calculate_interaction_risk_short (idx : InteractionIndex)
    (meds : List String) (h : meds.length < 2) :
    (calculate_interaction_risk idx meds).1 = 0 := by
  simp [calculate_interaction_risk, h]

/-- The dosage sub-score is 0 for the empty medication list. -/
theorem calculate_dosage_risk_nil (a : List DDDRecord) (b : List AgeRecord)
    (p : PatientInfo) : (calculate_dosage_risk a b [] p).1 = 0 := by
  simp [calculate_dosage_risk]

/-- The polypharmacy sub-score is 0 for at most one medication. -/
theorem calculate_polypharmacy_risk_le_one (meds : List Med) (p : PatientInfo)
    (h : meds.length ≤ 1) : (calculate_polypharmacy_risk meds p).1 = 0 := by
  simp only [calculate_polypharmacy_risk]
  split_ifs <;> norm_num

/-- Rounding the clamped safety score stays within the 0-10 band. -/
theorem roundTo1_clamp_bounds (v : ℚ) :
    0 ≤ roundTo1 (clampQ v 0 10) ∧ roundTo1 (clampQ v 0 10) ≤ 10 := by
  have hc0 : (0:ℚ) ≤ clampQ v 0 10 := le_max_left _ _
  have hc10 : clampQ v 0 10 ≤ 10 := max_le (by norm_num) (min_le_left _ _)
  unfold roundTo1
  rw [pyRound_eq]
  constructor
  · apply div_nonneg _ (by norm_num)
    have h0 : (0:ℤ) ≤ ⌊clampQ v 0 10 * 10 + 1/2⌋ := by
      apply Int.le_floor.mpr
      push_cast
      nlinarith
    exact_mod_cast h0
  · rw [div_le_iff₀ (by norm_num : (0:ℚ) < 10)]
    have h100 : ⌊clampQ v 0 10 * 10 + 1/2⌋ ≤ 100 := by
      have hle : clampQ v 0 10 * 10 + 1/2 ≤ 201/2 := by nlinarith
      have := Int.floor_le_floor hle
      have h2 : ⌊(201/2 : ℚ)⌋ = 100 := by norm_num
      omega
    have : ((⌊clampQ v 0 10 * 10 + 1/2⌋ : ℤ) : ℚ) ≤ 100 := by exact_mod_cast h100
    linarith

/-- C1: `predict_risk` returns risk_score equal to
round(clamp(10 - (0.6 i + 0.3 d + 0.1 p)/10, 0, 10), 1) over the three
danger sub-scores i, d, p on every path (including the single-medication
shortcut); the score always lies in [0, 10]; and the empty medication list
yields risk_score 10.0 with risk_level SAFE. -/
theorem C1_predict_risk_formula (idx : InteractionIndex) (atc_db : List DDDRecord)
    (age_db : List AgeRecord) (meds : List Med) (pinfo : PatientInfo) :
    ((predict_risk idx atc_db age_db meds pinfo).risk_score =
      roundTo1 (clampQ (10 -
        (0.6 * (calculate_interaction_risk idx (meds.map Med.name)).1 +
          0.3 * (calculate_dosage_risk atc_db age_db meds pinfo).1 +
          0.1 * (calculate_polypharmacy_risk meds pinfo).1) / 10) 0 10)) ∧
    (0 ≤ (predict_risk idx atc_db age_db meds pinfo).risk_score ∧
      (predict_risk idx atc_db age_db meds pinfo).risk_score ≤ 10) ∧
    (meds = [] → (predict_risk idx atc_db age_db meds pinfo).risk_score = 10.0 ∧
      (predict_risk idx atc_db age_db meds pinfo).risk_level = "SAFE") := by
  have hmain : (predict_risk idx atc_db age_db meds pinfo).risk_score =
      roundTo1 (clampQ (10 -
        (0.6 * (calculate_interaction_risk idx (meds.map Med.name)).1 +
          0.3 * (calculate_dosage_risk atc_db age_db meds pinfo).1 +
          0.1 * (calculate_polypharmacy_risk meds pinfo).1) / 10) 0 10) := by
    match meds with
    | [] =>
      rw [calculate_interaction_risk_short idx _ (by simp),
        calculate_dosage_risk_nil, calculate_polypharmacy_risk_le_one _ _ (by simp)]
      simp only [predict_risk]
      norm_num [clampQ]
      with_unfolding_all decide
    | [m] =>
      rw [calculate_interaction_risk_short idx _ (by simp),
        calculate_polypharmacy_risk_le_one _ _ (by simp)]
      simp only [predict_risk]
      rw [if_neg (by simp : ¬([m] : List Med) = []),
        if_pos (by simp : (([m] : List Med).map Med.name).length = 1)]
      dsimp only
      rw [(by ring : (calculate_dosage_risk atc_db age_db [m] pinfo).1 * 0.3 =
        0.6 * 0 + 0.3 * (calculate_dosage_risk atc_db age_db [m] pinfo).1 + 0.1 * 0)]
    | m1 :: m2 :: rest =>
      simp only [predict_risk]
      rw [if_neg (by simp : ¬(m1 :: m2 :: rest : List Med) = []),
        if_neg (by simp : ¬(((m1 :: m2 :: rest) : List Med).map Med.name).length = 1)]
      dsimp only
      rw [(by ring :
        (calculate_interaction_risk idx ((m1 :: m2 :: rest).map Med.name)).1 * 0.6 +
          (calculate_dosage_risk atc_db age_db (m1 :: m2 :: rest) pinfo).1 * 0.3 +
          (calculate_polypharmacy_risk (m1 :: m2 :: rest) pinfo).1 * 0.1 =
        0.6 * (calculate_interaction_risk idx ((m1 :: m2 :: rest).map Med.name)).1 +
          0.3 * (calculate_dosage_risk atc_db age_db (m1 :: m2 :: rest) pinfo).1 +
          0.1 * (calculate_polypharmacy_risk (m1 :: m2 :: rest) pinfo).1)]
  refine ⟨hmain, ?_, ?_⟩
  · rw [hmain]
    exact roundTo1_clamp_bounds _
  · intro h
    subst h
    constructor <;> simp [predict_risk]

/-- C1 witness: the empty medication list gives the perfect safety
score. -/
theorem C1_witness :
    (predict_risk none [] [] [] {}).risk_score = 10.0 ∧
    (predict_risk none [] [] [] {}).risk_level = "SAFE" :=
  (C1_predict_risk_formula none [] [] [] {}).2.2 rfl

/-- Two candidates carry different normalized names. -/
def diffNorm (a b : Alternative) : Prop :=
  normalize_med_name a.name ≠ normalize_med_name b.name

/-- The deduplication worker: its output never repeats a name already
seen, is pairwise distinct by normalized name, and every kept element is
the first occurrence of its normalized name in the input. -/
theorem dedupByNormAux_spec (l : List Alternative) : ∀ seen : List String,
    (∀ a ∈ dedupByNormAux seen l, normalize_med_name a.name ∉ seen) ∧
    List.Pairwise diffNorm (dedupByNormAux seen l) ∧
    (∀ a ∈ dedupByNormAux seen l, ∃ pre suf, l = pre ++ a :: suf ∧
      ∀ b ∈ pre, normalize_med_name b.name ≠ normalize_med_name a.name) := by
  induction l with
  | nil =>
    intro seen
    refine ⟨by simp [dedupByNormAux], by simp [dedupByNormAux],
      by simp [dedupByNormAux]⟩
  | cons c rest ih =>
    intro seen
    by_cases hc : normalize_med_name c.name ∈ seen
    · have hred : dedupByNormAux seen (c :: rest) = dedupByNormAux seen rest := by
        simp [dedupByNormAux, hc]
      obtain ⟨ih1, ih2, ih3⟩ := ih seen
      rw [hred]
      refine ⟨ih1, ih2, ?_⟩
      intro a ha
      obtain ⟨pre, suf, heq, hpre⟩ := ih3 a ha
      refine ⟨c :: pre, suf, by rw [heq, List.cons_append], ?_⟩
      intro b hb
      rcases List.mem_cons.mp hb with rfl | hb'
      · intro heq2
        exact ih1 a ha (heq2 ▸ hc)
      · exact hpre b hb'
    · have hred : dedupByNormAux seen (c :: rest) =
          c :: dedupByNormAux (normalize_med_name c.name :: seen) rest := by
        simp [dedupByNormAux, hc]
      obtain ⟨ih1, ih2, ih3⟩ := ih (normalize_med_name c.name :: seen)
      rw [hred]
      refine ⟨?_, ?_, ?_⟩
      · intro a ha
        rcases List.mem_cons.mp ha with rfl | ha'
        · exact hc
        · exact fun hmem => ih1 a ha' (List.mem_cons_of_mem _ hmem)
      · refine List.Pairwise.cons ?_ ih2
        intro b hb
        have hnotin := ih1 b hb
        intro heq2
        exact hnotin (heq2 ▸ List.mem_cons_self _ _)
      · intro a ha
        rcases List.mem_cons.mp ha with rfl | ha'
        · exact ⟨[], rest, rfl, by simp⟩
        · obtain ⟨pre, suf, heq, hpre⟩ := ih3 a ha'
          refine ⟨c :: pre, suf, by rw [heq, List.cons_append], ?_⟩
          intro b hb
          rcases List.mem_cons.mp hb with rfl | hb'
          · intro heq2
            exact ih1 a ha' (heq2 ▸ List.mem_cons_self _ _)
          · exact hpre b hb'

/-- C7 amended: `suggest_alternatives` deduplicates candidates by
normalized name keeping the first occurrence in generation order
(same-ingredient first, then for each target prefix the ATC matches and
then the EML matches), sorts stably ascending by priority tier and
truncates to max_results; the output is sorted, duplicate-free by
normalized name, and each element is the first generated candidate with
its normalized name.  (The first occurrence is not always the lowest
priority tier: see the counterexample.) -/
theorem C7_amended (med_details : List MedDetailRecord)
    (atc_db : List AtcRecord) (eml_db : List EmlRecord)
    (medication_name : String) (dose_text : Option String)
    (max_results : ℕ) :
    (suggest_alternatives med_details atc_db eml_db medication_name dose_text
      max_results).length ≤ max_results ∧
    List.Sorted priorityLE (suggest_alternatives med_details atc_db eml_db
      medication_name dose_text max_results) ∧
    List.Pairwise diffNorm (suggest_alternatives med_details atc_db eml_db
      medication_name dose_text max_results) ∧
    (∀ a ∈ suggest_alternatives med_details atc_db eml_db medication_name
        dose_text max_results, ∃ pre suf,
      suggest_all_candidates med_details atc_db eml_db medication_name
        dose_text = pre ++ a :: suf ∧
      ∀ b ∈ pre, normalize_med_name b.name ≠ normalize_med_name a.name) := by
  obtain ⟨h1, h2, h3⟩ := dedupByNormAux_spec
    (suggest_all_candidates med_details atc_db eml_db medication_name
      dose_text) []
  have hperm := List.perm_insertionSort priorityLE
    (dedupByNorm (suggest_all_candidates med_details atc_db eml_db
      medication_name dose_text))
  simp only [suggest_alternatives]
  refine ⟨?_, ?_, ?_, ?_⟩
  · rw [List.length_take]
    exact min_le_left _ _
  · exact List.Pairwise.sublist (List.take_sublist _ _)
      (List.sorted_insertionSort priorityLE _)
  · refine List.Pairwise.sublist (List.take_sublist _ _) ?_
    exact (hperm.pairwise_iff (fun h => Ne.symm h)).mpr h2
  · intro a ha
    have ha2 : a ∈ List.insertionSort priorityLE
        (dedupByNorm (suggest_all_candidates med_details atc_db eml_db
          medication_name dose_text)) :=
      (List.take_sublist _ _).subset ha
    exact h3 a (hperm.mem_iff.mp ha2)

/-- C7 counterexample: with the three aspirin prefixes, a drug listed in
the EML under the first prefix (tier 2) precedes its ATC-table entry under
the second prefix (tier 1) in generation order, so deduplication keeps the
tier-2 candidate: the claim that the candidate with the lower priority
tier is the one kept is false at this input. -/
theorem C7_counterexample :
    ((suggest_alternatives []
        [{ atc_code := "N02BE01", drug_name := "drugx",
           drug_name_normalized := "drugx" }]
        [{ medicine := "drugx", atc_code := "N02BA01", category := "c",
           medicine_normalized := "drugx" }]
        "aspirin" (some "aspirin 500mg") 5).map fun a => (a.name, a.priority)) =
      [("drugx", 2)] ∧
    ((suggest_all_candidates []
        [{ atc_code := "N02BE01", drug_name := "drugx",
           drug_name_normalized := "drugx" }]
        [{ medicine := "drugx", atc_code := "N02BA01", category := "c",
           medicine_normalized := "drugx" }]
        "aspirin" (some "aspirin 500mg")).map fun a => (a.name, a.priority)) =
      [("drugx", 2), ("drugx", 1)] := by
  with_unfolding_all decide

/-- C7 witness: the kept tier-2 candidate is the first occurrence of its
normalized name in the generated candidate list. -/
theorem C7_witness :
    ∃ pre suf,
      suggest_all_candidates []
        [{ atc_code := "N02BE01", drug_name := "drugx",
           drug_name_normalized := "drugx" }]
        [{ medicine := "drugx", atc_code := "N02BA01", category := "c",
           medicine_normalized := "drugx" }]
        "aspirin" (some "aspirin 500mg") =
        pre ++ ({ name := "drugx", atc_code := some "N02BA01",
                  source := "WHO Essential Medicines List",
                  reason := "WHO recommended alternative (N02BA)",
                  priority := 2 } : Alternative) :: suf ∧
      ∀ b ∈ pre, normalize_med_name b.name ≠ normalize_med_name
        ({ name := "drugx", atc_code := some "N02BA01",
           source := "WHO Essential Medicines List",
           reason := "WHO recommended alternative (N02BA)",
           priority := 2 } : Alternative).name :=
  (C7_amended []
    [{ atc_code := "N02BE01", drug_name := "drugx",
       drug_name_normalized := "drugx" }]
    [{ medicine := "drugx", atc_code := "N02BA01", category := "c",
       medicine_normalized := "drugx" }]
    "aspirin" (some "aspirin 500mg") 5).2.2.2 _ (by with_unfolding_all decide)

/-- Characters outside A-Z other than `Â` are fixed by lowering. -/
theorem pyLowerChar_fix (d : Char) (h1 : ¬('A' ≤ d ∧ d ≤ 'Z'))
    (h2 : d ≠ 'Â') : pyLowerChar d = d := by
  unfold pyLowerChar
  rw [if_neg h1, if_neg h2]

/-- Lowering an uppercase ASCII letter adds 32 to its code point. -/
theorem pyLowerChar_toNat_upper (c : Char) (h : 'A' ≤ c ∧ c ≤ 'Z') :
    (pyLowerChar c).toNat = c.toNat + 32 := by
  have hv : (c.toNat + 32).isValidChar := by
    have h90 : c.toNat ≤ 90 := h.2
    exact Or.inl (by omega)
  unfold pyLowerChar
  rw [if_pos h]
  unfold Char.ofNat
  rw [dif_pos hv]
  rfl

/-- Lowering a character twice is the same as lowering it once. -/
theorem pyLowerChar_idem (c : Char) :
    pyLowerChar (pyLowerChar c) = pyLowerChar c := by
  by_cases h1 : 'A' ≤ c ∧ c ≤ 'Z'
  · apply pyLowerChar_fix
    · rintro ⟨ha, hz⟩
      have h90 : (pyLowerChar c).toNat ≤ 90 := hz
      have hto := pyLowerChar_toNat_upper c h1
      have h65 : 65 ≤ c.toNat := h1.1
      omega
    · exact pyLowerChar_ne_Acirc c
  · by_cases h2 : c = 'Â'
    · subst h2
      decide
    · rw [pyLowerChar_fix c h1 h2]
      exact pyLowerChar_fix c h1 h2

/-- The dosage substitution only deletes characters. -/
theorem reSubDoseAux_subset : ∀ (f : ℕ) (l : List Char) (c : Char),
    c ∈ reSubDoseAux f l → c ∈ l := by
  intro f
  induction f with
  | zero => intro l c h; exact h
  | succ f ih =>
    intro l c h
    match l with
    | [] => exact h
    | d :: rest =>
      rw [reSubDoseAux] at h
      cases hm : matchDose (d :: rest) with
      | some n =>
        rw [hm] at h
        exact List.drop_subset n (d :: rest) (ih _ c h)
      | none =>
        rw [hm] at h
        rcases List.mem_cons.mp h with rfl | h'
        · exact List.mem_cons_self _ _
        · exact List.mem_cons_of_mem _ (ih rest c h')

/-- The formulation-word substitution only deletes characters. -/
theorem reSubFormAux_subset : ∀ (f : ℕ) (prev : Option Char) (l : List Char)
    (c : Char), c ∈ reSubFormAux f prev l → c ∈ l := by
  intro f
  induction f with
  | zero => intro prev l c h; exact h
  | succ f ih =>
    intro prev l c h
    match l with
    | [] => exact h
    | d :: rest =>
      rw [reSubFormAux] at h
      cases hm : matchForm prev (d :: rest) with
      | some n =>
        rw [hm] at h
        exact List.drop_subset n (d :: rest) (ih _ _ c h)
      | none =>
        rw [hm] at h
        rcases List.mem_cons.mp h with rfl | h'
        · exact List.mem_cons_self _ _
        · exact List.mem_cons_of_mem _ (ih _ rest c h')

/-- Characters of split tokens come from the input or the accumulator. -/
theorem splitWSAux_chars : ∀ (l acc : List Char) (t : List Char),
    t ∈ splitWSAux l acc → ∀ c ∈ t, c ∈ l ∨ c ∈ acc := by
  intro l
  induction l with
  | nil =>
    intro acc t ht c hc
    rw [splitWSAux] at ht
    by_cases hacc : acc = ([] : List Char)
    · rw [if_pos hacc] at ht
      exact absurd ht (List.not_mem_nil t)
    · rw [if_neg hacc] at ht
      rcases List.mem_singleton.mp ht with rfl
      exact Or.inr (List.mem_reverse.mp hc)
  | cons d rest ih =>
    intro acc t ht c hc
    rw [splitWSAux] at ht
    by_cases hws : isPyWS d = true
    · rw [if_pos hws] at ht
      by_cases hacc : acc = ([] : List Char)
      · rw [if_pos hacc] at ht
        rcases ih [] t ht c hc with h | h
        · exact Or.inl (List.mem_cons_of_mem _ h)
        · exact absurd h (List.not_mem_nil c)
      · rw [if_neg hacc] at ht
        rcases List.mem_cons.mp ht with rfl | ht'
        · exact Or.inr (List.mem_reverse.mp hc)
        · rcases ih [] t ht' c hc with h | h
          · exact Or.inl (List.mem_cons_of_mem _ h)
          · exact absurd h (List.not_mem_nil c)
    · rw [if_neg hws] at ht
      rcases ih (d :: acc) t ht c hc with h | h
      · exact Or.inl (List.mem_cons_of_mem _ h)
      · rcases List.mem_cons.mp h with rfl | h'
        · exact Or.inl (List.mem_cons_self _ _)
        · exact Or.inr h'

/-- Characters of a joined list come from a token or are the space. -/
theorem joinSpace_chars : ∀ (ts : List (List Char)) (c : Char),
    c ∈ joinSpace ts → (∃ t ∈ ts, c ∈ t) ∨ c = ' ' := by
  intro ts
  induction ts with
  | nil => intro c h; exact absurd h (List.not_mem_nil c)
  | cons t rest ih =>
    intro c h
    match rest with
    | [] => exact Or.inl ⟨t, List.mem_singleton.mpr rfl, h⟩
    | u :: rest' =>
      rw [joinSpace] at h
      rcases List.mem_append.mp h with h' | h'
      · exact Or.inl ⟨t, List.mem_cons_self _ _, h'⟩
      · rcases List.mem_cons.mp h' with rfl | h2
        · exact Or.inr rfl
        · rcases ih c h2 with ⟨t', ht', hc'⟩ | hsp
          · exact Or.inl ⟨t', List.mem_cons_of_mem _ ht', hc'⟩
          · exact Or.inr hsp

/-- Split tokens are nonempty and whitespace-free (given a whitespace-free
accumulator). -/
theorem splitWSAux_tokens : ∀ (l acc : List Char)
    (hacc : ∀ c ∈ acc, isPyWS c = false) (t : List Char),
    t ∈ splitWSAux l acc → t ≠ [] ∧ ∀ c ∈ t, isPyWS c = false := by
  intro l
  induction l with
  | nil =>
    intro acc hacc t ht
    rw [splitWSAux] at ht
    by_cases h : acc = ([] : List Char)
    · rw [if_pos h] at ht
      exact absurd ht (List.not_mem_nil t)
    · rw [if_neg h] at ht
      rcases List.mem_singleton.mp ht with rfl
      refine ⟨fun hrev => h (by simpa using hrev), ?_⟩
      intro c hc
      exact hacc c (List.mem_reverse.mp hc)
  | cons d rest ih =>
    intro acc hacc t ht
    rw [splitWSAux] at ht
    by_cases hws : isPyWS d = true
    · rw [if_pos hws] at ht
      by_cases h : acc = ([] : List Char)
      · rw [if_pos h] at ht
        exact ih [] (by intro c hc; exact absurd hc (List.not_mem_nil c)) t ht
      · rw [if_neg h] at ht
        rcases List.mem_cons.mp ht with rfl | ht'
        · refine ⟨fun hrev => h (by simpa using hrev), ?_⟩
          intro c hc
          exact hacc c (List.mem_reverse.mp hc)
        · exact ih [] (by intro c hc; exact absurd hc (List.not_mem_nil c)) t ht'
    · rw [if_neg hws] at ht
      refine ih (d :: acc) ?_ t ht
      intro c hc
      rcases List.mem_cons.mp hc with rfl | hc'
      · exact Bool.not_eq_true _ ▸ (by simpa using hws)
      · exact hacc c hc'

/-- A nonempty join of well-formed tokens starts with a non-whitespace
character. -/
theorem joinSpace_first : ∀ (ts : List (List Char))
    (htok : ∀ t ∈ ts, t ≠ [] ∧ ∀ c ∈ t, isPyWS c = false), ts ≠ [] →
    ∃ c rest, joinSpace ts = c :: rest ∧ isPyWS c = false := by
  intro ts
  match ts with
  | [] => intro _ h; exact absurd rfl h
  | t :: rest =>
    intro htok _
    obtain ⟨hne, hchars⟩ := htok t (List.mem_cons_self _ _)
    match t, hne with
    | c :: tc, _ =>
      match rest with
      | [] => exact ⟨c, tc, rfl, hchars c (List.mem_cons_self _ _)⟩
      | u :: rest' =>
        exact ⟨c, tc ++ ' ' :: joinSpace (u :: rest'), rfl,
          hchars c (List.mem_cons_self _ _)⟩

/-- A nonempty join of well-formed tokens ends with a non-whitespace
character. -/
theorem joinSpace_last : ∀ (ts : List (List Char))
    (htok : ∀ t ∈ ts, t ≠ [] ∧ ∀ c ∈ t, isPyWS c = false), ts ≠ [] →
    ∃ pre c, joinSpace ts = pre ++ [c] ∧ isPyWS c = false := by
  intro ts
  induction ts with
  | nil => intro _ h; exact absurd rfl h
  | cons t rest ih =>
    intro htok _
    obtain ⟨hne, hchars⟩ := htok t (List.mem_cons_self _ _)
    match rest with
    | [] =>
      rcases List.eq_nil_or_concat t with rfl | ⟨pre, c, hc⟩
      · exact absurd rfl hne
      · refine ⟨pre, c, by simpa [List.concat_eq_append] using hc, ?_⟩
        apply hchars
        rw [hc]
        simp [List.concat_eq_append]
    | u :: rest' =>
      obtain ⟨pre, c, hjoin, hcws⟩ := ih
        (fun t' ht' => htok t' (List.mem_cons_of_mem _ ht'))
        (by simp)
      refine ⟨t ++ ' ' :: pre, c, ?_, hcws⟩
      rw [joinSpace, hjoin]
      simp

/-- Stripping is the identity on lists without edge whitespace. -/
theorem pyStrip_eq_self (l : List Char)
    (hh : ∀ c rest, l = c :: rest → isPyWS c = false)
    (hl : ∀ pre c, l = pre ++ [c] → isPyWS c = false) :
    pyStrip l = l := by
  match l with
  | [] => rfl
  | a :: rest =>
    unfold pyStrip
    rw [List.dropWhile_cons, if_neg (by simp [hh a rest rfl])]
    rcases List.eq_nil_or_concat (a :: rest) with h | ⟨pre, c, hc⟩
    · exact absurd h (by simp)
    · rw [hc, List.concat_eq_append, List.reverse_append]
      simp only [List.reverse_cons, List.reverse_nil, List.nil_append,
        List.singleton_append, List.dropWhile_cons]
      rw [if_neg (by simp [hl pre c (by simpa [List.concat_eq_append] using hc)])]
      simp

/-- Scanning a whitespace-free block moves it into the accumulator. -/
theorem splitWSAux_append_token : ∀ (t : List Char)
    (ht : ∀ c ∈ t, isPyWS c = false) (l acc : List Char),
    splitWSAux (t ++ l) acc = splitWSAux l (t.reverse ++ acc) := by
  intro t
  induction t with
  | nil => intro _ l acc; simp
  | cons c t' ih =>
    intro ht l acc
    rw [List.cons_append, splitWSAux,
      if_neg (by simp [ht c (List.mem_cons_self _ _)])]
    rw [ih (fun d hd => ht d (List.mem_cons_of_mem _ hd)) l (c :: acc)]
    simp

/-- A space flushes a nonempty accumulator as a token. -/
theorem splitWSAux_space (l acc : List Char) (hacc : acc ≠ []) :
    splitWSAux (' ' :: l) acc = acc.reverse :: splitWSAux l [] := by
  rw [splitWSAux, if_pos (by decide), if_neg hacc]

/-- Splitting a join of nonempty whitespace-free tokens recovers the
tokens. -/
theorem splitWS_joinSpace : ∀ (ts : List (List Char)),
    (∀ t ∈ ts, t ≠ [] ∧ ∀ c ∈ t, isPyWS c = false) →
    splitWS (joinSpace ts) = ts := by
  intro ts
  induction ts with
  | nil => intro _; rfl
  | cons t rest ih =>
    intro htok
    obtain ⟨hne, hchars⟩ := htok t (List.mem_cons_self _ _)
    match rest with
    | [] =>
      show splitWSAux t [] = [t]
      have := splitWSAux_append_token t hchars [] []
      rw [List.append_nil] at this
      rw [this, List.append_nil, splitWSAux,
        if_neg (by simpa using hne)]
      simp
    | u :: rest' =>
      show splitWSAux (t ++ ' ' :: joinSpace (u :: rest')) [] = t :: u :: rest'
      rw [splitWSAux_append_token t hchars _ [], List.append_nil,
        splitWSAux_space _ _ (by simpa using hne), List.reverse_reverse]
      exact congrArg _ (ih (fun t' ht' => htok t' (List.mem_cons_of_mem _ ht')))

/-- The dosage substitution is the identity on digit-free text. -/
theorem reSubDoseAux_id : ∀ (f : ℕ) (l : List Char),
    (∀ c ∈ l, isPyDigit c = false) → reSubDoseAux f l = l := by
  intro f
  induction f with
  | zero => intro l _; rfl
  | succ f ih =>
    intro l hl
    match l with
    | [] => rfl
    | c :: rest =>
      have hm : matchDose (c :: rest) = none := by
        simp [matchDose, List.takeWhile_cons, hl c (List.mem_cons_self _ _)]
      rw [reSubDoseAux, hm]
      exact congrArg _ (ih rest (fun d hd => hl d (List.mem_cons_of_mem _ hd)))

/-- A word that is not a substring is in particular not a prefix. -/
theorem hasPref_false_of_not_infix (w l : List Char)
    (h : charsInfix w l = false) : hasPref w l = false := by
  match l with
  | [] =>
    rw [charsInfix] at h
    match w with
    | [] => exact absurd h (by simp [List.isEmpty])
    | a :: w' => rfl
  | c :: rest =>
    rw [charsInfix] at h
    exact (Bool.or_eq_false_iff.mp h).1

/-- A word that is not a substring stays absent from the tail. -/
theorem charsInfix_tail (w : List Char) (c : Char) (rest : List Char)
    (h : charsInfix w (c :: rest) = false) : charsInfix w rest = false := by
  rw [charsInfix] at h
  exact (Bool.or_eq_false_iff.mp h).2

/-- The formulation-word substitution is the identity on text without any
formulation word as a substring. -/
theorem reSubFormAux_id : ∀ (f : ℕ) (l : List Char),
    (∀ w ∈ formWords, charsInfix w l = false) → ∀ prev,
    reSubFormAux f prev l = l := by
  intro f
  induction f with
  | zero => intro l _ prev; rfl
  | succ f ih =>
    intro l hl prev
    match l with
    | [] => rfl
    | c :: rest =>
      have hm : matchForm prev (c :: rest) = none := by
        unfold matchForm
        by_cases hb : boundaryOk prev = true
        · rw [if_pos hb]
          rw [List.findSome?_eq_none_iff]
          intro w hw
          rw [if_neg]
          intro hcond
          have := hasPref_false_of_not_infix w (c :: rest) (hl w hw)
          rw [hcond.1] at this
          exact absurd this (by simp)
        · rw [if_neg hb]
      rw [reSubFormAux, hm]
      refine congrArg _ (ih rest ?_ (some c))
      intro w hw
      exact charsInfix_tail w c rest (hl w hw)

/-- Two decompositions with a final singleton share the last element. -/
theorem last_of_append_singleton {a b : Char} {l m : List Char}
    (h : l ++ [a] = m ++ [b]) : a = b := by
  have h2 := congrArg List.getLast? h
  simpa using h2

/-- The output of `normalize_med_name` is already lowercased, stripped,
and whitespace-collapsed. -/
theorem normalize_output_props (x : String) :
    pyLowerList (normalize_med_name x).data = (normalize_med_name x).data ∧
    pyStrip (normalize_med_name x).data = (normalize_med_name x).data ∧
    joinSpace (splitWS (normalize_med_name x).data) =
      (normalize_med_name x).data := by
  by_cases hx : x = ""
  · subst hx
    exact ⟨rfl, rfl, rfl⟩
  · have hdef : (normalize_med_name x).data =
        joinSpace (splitWS (reSubForm (reSubDose (pyLowerList (pyStrip x.data))))) := by
      unfold normalize_med_name
      rw [if_neg hx]
    set s3 := reSubForm (reSubDose (pyLowerList (pyStrip x.data))) with hs3
    have htok : ∀ t ∈ splitWS s3, t ≠ [] ∧ ∀ c ∈ t, isPyWS c = false :=
      fun t ht => splitWSAux_tokens s3 []
        (fun c hc => absurd hc (List.not_mem_nil c)) t ht
    have hfix : ∀ c ∈ (normalize_med_name x).data, pyLowerChar c = c := by
      intro c hc
      rw [hdef] at hc
      rcases joinSpace_chars _ c hc with ⟨t, ht, hct⟩ | rfl
      · have hcs3 : c ∈ s3 := by
          rcases splitWSAux_chars s3 [] t ht c hct with h | h
          · exact h
          · exact absurd h (List.not_mem_nil c)
        have hcs2 : c ∈ reSubDose (pyLowerList (pyStrip x.data)) :=
          reSubFormAux_subset _ _ _ c hcs3
        have hcs1 : c ∈ pyLowerList (pyStrip x.data) :=
          reSubDoseAux_subset _ _ c hcs2
        obtain ⟨c0, _, rfl⟩ := List.mem_map.mp hcs1
        exact pyLowerChar_idem c0
      · decide
    refine ⟨?_, ?_, ?_⟩
    · have : List.map pyLowerChar (normalize_med_name x).data =
          List.map id (normalize_med_name x).data :=
        List.map_congr_left hfix
      rw [List.map_id] at this
      exact this
    · rcases hts : splitWS s3 with _ | ⟨t, rest⟩
      · rw [hdef, hts]
        rfl
      · have hne : splitWS s3 ≠ [] := by rw [hts]; simp
        obtain ⟨c, restl, hfirst, hcws⟩ := joinSpace_first (splitWS s3) htok hne
        obtain ⟨pre, cl, hlast, hclws⟩ := joinSpace_last (splitWS s3) htok hne
        apply pyStrip_eq_self
        · intro c' rest' hcr
          rw [hdef, hfirst] at hcr
          injection hcr with h1 _
          rw [← h1]
          exact hcws
        · intro pre' c' hcr
          rw [hdef, hlast] at hcr
          rw [← last_of_append_singleton hcr]
          exact hclws
    · rw [hdef, splitWS_joinSpace (splitWS s3) htok]

/-- C3 amended: normalization is idempotent on every input whose
normalized form is ASCII with no digit, and contains no formulation word
as a substring; the unrestricted claim fails (see the counterexample)
because deleting a dosage token or formulation word can splice digits and
a unit into a new dosage token that only the second pass removes.  The
ASCII bound is part of the claim, not of the proof: Python's `\d` (str
patterns) matches every Unicode decimal digit, e.g. U+0665 in "٥ g", so
digit-freeness alone would not exclude a second-pass dosage match in the
real program; on ASCII text the modelled character classes agree with
Python's exactly, and there `\d`-freeness is `isPyDigit`-freeness. -/
theorem C3_amended (x : String)
    (hd : ∀ c ∈ (normalize_med_name x).data,
      c.toNat < 128 ∧ isPyDigit c = false)
    (hw : ∀ w ∈ formWords, charsInfix w (normalize_med_name x).data = false) :
    normalize_med_name (normalize_med_name x) = normalize_med_name x := by
  have hd2 : ∀ c ∈ (normalize_med_name x).data, isPyDigit c = false :=
    fun c hc => (hd c hc).2
  obtain ⟨H1, H2, H3⟩ := normalize_output_props x
  set y := normalize_med_name x with hy0
  by_cases hy : y = ""
  · rw [hy]
    rfl
  · unfold normalize_med_name
    rw [if_neg hy]
    dsimp only
    rw [H2, H1]
    rw [show reSubDose y.data = y.data from reSubDoseAux_id _ _ hd2]
    rw [show reSubForm y.data = y.data from reSubFormAux_id _ _ hw none]
    rw [H3]

/-- C3 counterexample: deleting the formulation word of "5 tablet g"
yields "5 g", which a second normalization deletes entirely, so
normalization is not idempotent. -/
theorem C3_counterexample :
    normalize_med_name (normalize_med_name "5 tablet g") ≠
      normalize_med_name "5 tablet g" ∧
    normalize_med_name "5 tablet g" = "5 g" ∧
    normalize_med_name "5 g" = "" := by
  refine ⟨?_, by decide, by decide⟩
  decide

/-- C3 witness: an ASCII, digit-free normalized form is a fixed point. -/
theorem C3_witness :
    normalize_med_name (normalize_med_name "Amoxicillin Syrup") =
      normalize_med_name "Amoxicillin Syrup" :=
  C3_amended "Amoxicillin Syrup" (by decide) (by decide)

end PharmAI
